import Mathlib

/-!
Verification development for the NACC financial-disclosure extraction
pipeline (`src/llm_parser.py`, `src/json_to_csv.py`).

The Python code is shallowly embedded: JSON-like dynamic values become the
inductive type `Val`; a Python dict field that may be absent or may hold
`None` becomes `Field α := Option (Option α)` (`none` = key absent,
`some none` = key present with value `None`, `some (some a)` = value `a`);
fallible code returns `Except`.  Machine floats carrying money amounts are
modelled as exact rationals (`ℚ`), which is faithful for the arithmetic
properties considered here.
-/

set_option maxHeartbeats 1000000

namespace NaccPipeline

/-- Dynamic (JSON-like) Python value. -/
inductive Val where
  | vnull : Val
  | vstr (s : String) : Val
  | vint (n : ℤ) : Val
  | vfloat (q : ℚ) : Val
  | vbool (b : Bool) : Val
  | vlist (l : List Val) : Val
  | vdict (d : List (String × Val)) : Val

/-- A Python dict with string keys, as an association list in insertion order. -/
abbrev Dict := List (String × Val)

/-- Python truthiness (`bool(v)`) for the values we model.
`None`, `""`, `0`, `0.0`, `False`, `[]` and the empty dict are falsy. -/
def truthy : Val → Bool
  | Val.vnull => false
  | Val.vstr s => !(s == "")
  | Val.vint n => !(n == 0)
  | Val.vfloat q => !(q == 0)
  | Val.vbool b => b
  | Val.vlist l => !l.isEmpty
  | Val.vdict d => !d.isEmpty

/-- A dict entry that may be absent (`none`), present as `None`
(`some none`) or present with a value (`some (some a)`). -/
abbrev Field (α : Type) := Option (Option α)

/-- Python `d.get(key)`: `None` both for an absent key and a stored `None`. -/
def pyGet {α : Type} (f : Field α) : Option α :=
  match f with
  | none => none
  | some v => v

/-- Python `d.get(key, default)` (the body of `JSONToCSVConverter._safe_get`):
the default only replaces an absent key, not a stored `None`. -/
def pyGetD {α : Type} (f : Field α) (d : α) : Option α :=
  match f with
  | none => some d
  | some v => v

/-- First-match lookup in a dict (Python `d[k]` / `d.get(k)` position). -/
def lookupD (d : Dict) (k : String) : Option Val :=
  match d with
  | [] => none
  | (k', v) :: t => if k' = k then some v else lookupD t k

/-- Python `d.get(k)` on a dict of `Val`s: an absent key reads as `None`. -/
def pyDictGet (d : Dict) (k : String) : Val :=
  match lookupD d k with
  | none => Val.vnull
  | some v => v

/-- Python `d[k] = v`: replace the first binding of `k` in place, or append. -/
def setKey (d : Dict) (k : String) (v : Val) : Dict :=
  match d with
  | [] => [(k, v)]
  | (k', v') :: t => if k' = k then (k, v) :: t else (k', v') :: setKey t k v

/-! ### Page fragment payloads (the JSON shapes produced by the LLM layer) -/

/-- One `statements` entry of the extraction payload (schema of
`llm_parser.py`'s prompts: the four keys below). -/
structure Stmt where
  statement_type_id : Field ℤ := none
  valuation_submitter : Field ℚ := none
  valuation_spouse : Field ℚ := none
  valuation_child : Field ℚ := none

/-- One `statement_details` entry of the extraction payload. -/
structure StmtDetail where
  statement_detail_type_id : Field ℤ := none
  index : Field ℤ := none
  detail : Field String := none
  valuation_submitter : Field ℚ := none
  valuation_spouse : Field ℚ := none
  valuation_child : Field ℚ := none
  note : Field String := none

/-- One `relatives` entry of the extraction payload. -/
structure RelativeP where
  index : Field ℤ := none
  relationship_id : Field ℤ := none
  title : Field String := none
  first_name : Field String := none
  last_name : Field String := none
  age : Field ℤ := none
  address : Field String := none
  occupation : Field String := none
  school : Field String := none
  workplace : Field String := none
  workplace_location : Field String := none
  is_death : Field Bool := none

/-- One `assets` entry of the extraction payload.  The optional nested
sub-objects (`land_info`, `building_info`, `vehicle_info`) are schemaless
dicts in the source and stay generic dicts here. -/
structure AssetP where
  index : Field ℤ := none
  asset_type_id : Field ℤ := none
  asset_type_other : Field String := none
  asset_name : Field String := none
  date_acquiring_type_id : Field ℤ := none
  acquiring_date : Field ℤ := none
  acquiring_month : Field ℤ := none
  acquiring_year : Field ℤ := none
  date_ending_type_id : Field ℤ := none
  ending_date : Field ℤ := none
  ending_month : Field ℤ := none
  ending_year : Field ℤ := none
  asset_acquisition_type_id : Field ℤ := none
  valuation : Field ℚ := none
  owner_by_submitter : Field Bool := none
  owner_by_spouse : Field Bool := none
  owner_by_child : Field Bool := none
  land_info : Field Dict := none
  building_info : Field Dict := none
  vehicle_info : Field Dict := none

/-- One page's parse result (`LLMParser.parse_single_page` output):
either data fields or an error marker.  `submitter_info` and
`spouse_info` stay generic dicts, matching `_merge_info`, which iterates
over their items dynamically. -/
structure Fragment where
  page_number : Field ℤ := none
  page_type : Field String := none
  error : Field String := none
  submitter_info : Field Dict := none
  spouse_info : Field Dict := none
  relatives : Field (List RelativeP) := none
  statements : Field (List Stmt) := none
  statement_details : Field (List StmtDetail) := none
  assets : Field (List AssetP) := none

/-- Read a possibly absent, possibly `None` list field as a Python list.
(In the source a stored `None` list field is also skipped by the
`if page_data.get(...)` truthiness guards modelled below.) -/
def listD {α : Type} (f : Field α) (d : α) : α :=
  match f with
  | none => d
  | some none => d
  | some (some l) => l

/-! ### `LLMParser._merge_info` -/

/-- One key's merge decision in `LLMParser._merge_info`: `cur` is
`merged.get(key)` (absent reads as `None`), `v` the incoming value. -/
def mergeCell (cur v : Val) : Val :=
  match v with
  | Val.vnull => cur
  | Val.vlist l =>
    match cur with
    | Val.vlist m => Val.vlist (m ++ l)
    | Val.vnull => Val.vlist l
    | _ => cur
  | Val.vstr s =>
    match cur with
    | Val.vnull => Val.vstr s
    | _ => if !(s == "") && !(truthy cur) then Val.vstr s else cur
  | v =>
    match cur with
    | Val.vnull => v
    | _ => cur

/-- One iteration of the `for key, value in new.items()` loop of
`LLMParser._merge_info`, acting on the accumulator dict. -/
def mergeStep (acc : Dict) (k : String) (v : Val) : Dict :=
  match v with
  | Val.vnull => acc
  | Val.vlist l =>
    match pyDictGet acc k with
    | Val.vlist m => setKey acc k (Val.vlist (m ++ l))
    | Val.vnull => setKey acc k (Val.vlist l)
    | _ => acc
  | Val.vstr s =>
    match pyDictGet acc k with
    | Val.vnull => setKey acc k (Val.vstr s)
    | cur => if !(s == "") && !(truthy cur) then setKey acc k (Val.vstr s) else acc
  | v =>
    match pyDictGet acc k with
    | Val.vnull => setKey acc k v
    | _ => acc

/-- `LLMParser._merge_info`: merge two optional info dicts, preferring
non-null values already accumulated. -/
def mergeInfo (existing new : Option Dict) : Option Dict :=
  match new with
  | none => existing
  | some n =>
    match existing with
    | none => some n
    | some e => some (n.foldl (fun acc kv => mergeStep acc kv.1 kv.2) e)

/-! ### `LLMParser._dedupe_relatives` and `LLMParser._dedupe_statements` -/

/-- Dedup key of `LLMParser._dedupe_relatives`:
`(rel.get("first_name", ""), rel.get("last_name", ""), rel.get("relationship_id"))`. -/
def relKey (r : RelativeP) : Option String × Option String × Option ℤ :=
  (pyGetD r.first_name "", pyGetD r.last_name "", pyGet r.relationship_id)

/-- Loop of `LLMParser._dedupe_relatives` with its `seen` set made explicit. -/
def dedupeRelAux (seen : List (Option String × Option String × Option ℤ)) :
    List RelativeP → List RelativeP
  | [] => []
  | r :: t =>
    if relKey r ∈ seen then dedupeRelAux seen t
    else r :: dedupeRelAux (relKey r :: seen) t

/-- `LLMParser._dedupe_relatives`: drop relatives whose key was already seen. -/
def dedupeRelatives (l : List RelativeP) : List RelativeP :=
  dedupeRelAux [] l

/-- Number of non-null values of a statement dict
(`sum(1 for v in stmt.values() if v is not None)`). -/
def stmtCount (s : Stmt) : ℕ :=
  (if (pyGet s.statement_type_id).isSome then 1 else 0)
    + (if (pyGet s.valuation_submitter).isSome then 1 else 0)
    + (if (pyGet s.valuation_spouse).isSome then 1 else 0)
    + (if (pyGet s.valuation_child).isSome then 1 else 0)

/-- Grouping key of `LLMParser._dedupe_statements`. -/
def stmtType (s : Stmt) : Option ℤ :=
  pyGet s.statement_type_id

/-- Lookup in the `by_type` insertion-ordered map. -/
def lookupTy (bt : List (Option ℤ × Stmt)) (t : Option ℤ) : Option Stmt :=
  match bt with
  | [] => none
  | (t', s) :: r => if t' = t then some s else lookupTy r t

/-- In-place replacement in the `by_type` map (`by_type[type_id] = stmt`). -/
def setTy (bt : List (Option ℤ × Stmt)) (t : Option ℤ) (s : Stmt) :
    List (Option ℤ × Stmt) :=
  match bt with
  | [] => [(t, s)]
  | (t', s') :: r => if t' = t then (t, s) :: r else (t', s') :: setTy r t s

/-- One iteration of the `for stmt in statements` loop of
`LLMParser._dedupe_statements`. -/
def dedupeStep (bt : List (Option ℤ × Stmt)) (s : Stmt) : List (Option ℤ × Stmt) :=
  match lookupTy bt (stmtType s) with
  | none => bt ++ [(stmtType s, s)]
  | some e => if stmtCount e < stmtCount s then setTy bt (stmtType s) s else bt

/-- `LLMParser._dedupe_statements`: keep one statement per
`statement_type_id`, preferring strictly more non-null fields. -/
def dedupeStatements (l : List Stmt) : List Stmt :=
  (l.foldl dedupeStep []).map Prod.snd

/-! ### `LLMParser.merge_parsed_pages` -/

/-- The merged canonical document (`merge_parsed_pages` output shape). -/
structure MergedDoc where
  doc_id : String
  nacc_id : ℤ
  extraction_status : String
  confidence_score : ℚ
  submitter_info : Option Dict
  spouse_info : Option Dict
  relatives : List RelativeP
  statements : List Stmt
  statement_details : List StmtDetail
  assets : List AssetP

/-- A fragment carries an error marker: `page_data.get("error")` is truthy. -/
def hasError (p : Fragment) : Bool :=
  match pyGet p.error with
  | none => false
  | some s => !(s == "")

/-- Body of the per-page loop of `merge_parsed_pages`, acting on the
accumulator (successful pages count included). -/
def mergePage (acc : MergedDoc × ℕ) (p : Fragment) : MergedDoc × ℕ :=
  if hasError p then acc
  else
    let m := acc.1
    let m :=
      { m with
        submitter_info := mergeInfo m.submitter_info (pyGet p.submitter_info),
        spouse_info := mergeInfo m.spouse_info (pyGet p.spouse_info),
        relatives :=
          if (listD p.relatives []).isEmpty then m.relatives
          else m.relatives ++ listD p.relatives [],
        statements :=
          if (listD p.statements []).isEmpty then m.statements
          else m.statements ++ listD p.statements [],
        statement_details :=
          if (listD p.statement_details []).isEmpty then m.statement_details
          else m.statement_details ++ listD p.statement_details [],
        assets :=
          if (listD p.assets []).isEmpty then m.assets
          else m.assets ++ listD p.assets [] }
    (m, acc.2 + 1)

/-- Re-indexing of assets after merge (`asset["index"] = i`, 1-based). -/
def reindexAssets (l : List AssetP) : List AssetP :=
  (List.range l.length).zipWith (fun i a => { a with index := some (some ((i : ℤ) + 1)) }) l

/-- Re-indexing of relatives after merge. -/
def reindexRelatives (l : List RelativeP) : List RelativeP :=
  (List.range l.length).zipWith (fun i r => { r with index := some (some ((i : ℤ) + 1)) }) l

/-- `LLMParser.merge_parsed_pages`: merge per-page fragments into one
canonical document, dedupe, re-index, and compute confidence and status. -/
def mergeParsedPages (page_results : List Fragment) (doc_id : String)
    (nacc_id : ℤ) : MergedDoc :=
  let init : MergedDoc :=
    { doc_id := doc_id, nacc_id := nacc_id,
      extraction_status := "success", confidence_score := 0,
      submitter_info := none, spouse_info := none,
      relatives := [], statements := [], statement_details := [], assets := [] }
  let res := page_results.foldl mergePage (init, 0)
  let m := res.1
  let successful_pages := res.2
  let total_pages := page_results.length
  let m :=
    { m with
      relatives := reindexRelatives (dedupeRelatives m.relatives),
      statements := dedupeStatements m.statements,
      assets := reindexAssets m.assets,
      confidence_score :=
        if 0 < total_pages then (successful_pages : ℚ) / (total_pages : ℚ) else 0 }
  if successful_pages = 0 then { m with extraction_status := "failed" }
  else if successful_pages < total_pages then { m with extraction_status := "partial" }
  else m

/-! ### Canonical-document payload as read by `JSONToCSVConverter` -/

/-- One `positions` entry of the submitter/spouse payload. -/
structure PositionP where
  position_period_type_id : Field ℤ := none
  index : Field ℤ := none
  position : Field String := none
  position_category_type_id : Field ℤ := none
  workplace : Field String := none
  workplace_location : Field String := none
  date_acquiring_type_id : Field ℤ := none
  start_date : Field ℤ := none
  start_month : Field ℤ := none
  start_year : Field ℤ := none
  date_ending_type_id : Field ℤ := none
  end_date : Field ℤ := none
  end_month : Field ℤ := none
  end_year : Field ℤ := none
  note : Field String := none

/-- One structured `old_names` entry. -/
structure OldNameP where
  index : Field ℤ := none
  title : Field String := none
  first_name : Field String := none
  last_name : Field String := none
  title_en : Field String := none
  first_name_en : Field String := none
  last_name_en : Field String := none

/-- An `old_names` list entry: the source accepts both a plain string and a
dict (`isinstance(old_name, str)` branch of `_process_submitter`). -/
inductive OldNameE where
  | ostr (s : String) : OldNameE
  | oobj (o : OldNameP) : OldNameE

/-- The `submitter_info` payload object. -/
structure SubmitterP where
  title : Field String := none
  first_name : Field String := none
  last_name : Field String := none
  age : Field ℤ := none
  marital_status : Field String := none
  status_date : Field ℤ := none
  status_month : Field ℤ := none
  status_year : Field ℤ := none
  sub_district : Field String := none
  district : Field String := none
  province : Field String := none
  post_code : Field String := none
  phone_number : Field String := none
  mobile_number : Field String := none
  email : Field String := none
  positions : Field (List PositionP) := none
  old_names : Field (List OldNameE) := none

/-- The `spouse_info` payload object. -/
structure SpouseP where
  title : Field String := none
  first_name : Field String := none
  last_name : Field String := none
  title_en : Field String := none
  first_name_en : Field String := none
  last_name_en : Field String := none
  age : Field ℤ := none
  status : Field String := none
  status_date : Field ℤ := none
  status_month : Field ℤ := none
  status_year : Field ℤ := none
  sub_district : Field String := none
  district : Field String := none
  province : Field String := none
  post_code : Field String := none
  phone_number : Field String := none
  mobile_number : Field String := none
  email : Field String := none
  positions : Field (List PositionP) := none
  old_names : Field (List OldNameE) := none

/-- The canonical document consumed by
`JSONToCSVConverter.process_document`. -/
structure ParsedDoc where
  doc_id : Field String := none
  nacc_id : Field ℤ := none
  submitter_info : Field SubmitterP := none
  spouse_info : Field SpouseP := none
  relatives : Field (List RelativeP) := none
  statements : Field (List Stmt) := none
  statement_details : Field (List StmtDetail) := none
  assets : Field (List AssetP) := none

/-- The value `self._safe_get(data, key, default)` stores in a row cell:
the default for an absent key, Python `None` for a stored null, the value
(injected into `Val`) otherwise. -/
def sg {α : Type} (inj : α → Val) (f : Field α) (d : Val) : Val :=
  match f with
  | none => d
  | some none => Val.vnull
  | some (some a) => inj a

/-- Truthiness of `self._safe_get(data, key, False)` on a boolean field
(used for `is_death` and the `owner_by_*` flags). -/
def sgBoolTruthy (f : Field Bool) : Bool :=
  match f with
  | some (some b) => b
  | _ => false

/-- Python `data.get(key, default) if data else default` on a generic dict
(`_safe_get` applied to a nested info dict, which may be empty). -/
def dictSafeGet (d : Dict) (k : String) (dflt : Val) : Val :=
  if d.isEmpty then dflt
  else match lookupD d k with
       | none => dflt
       | some v => v

/-! ### Accumulator row shapes (the dict literals appended by `_process_*`) -/

/-- A `submitter_infos` row. -/
structure SubmitterRow where
  submitter_id : ℕ
  nacc_id : Val
  title : Val
  first_name : Val
  last_name : Val
  age : Val
  marital_status : Val
  status_date : Val
  status_month : Val
  status_year : Val
  sub_district : Val
  district : Val
  province : Val
  post_code : Val
  phone_number : Val
  mobile_number : Val
  email : Val
  latest_submitted_date : String

/-- A `submitter_positions` row. -/
structure SubmitterPositionRow where
  submitter_id : ℕ
  nacc_id : Val
  position_period_type_id : Val
  index : Val
  position : Val
  position_category_type_id : Val
  workplace : Val
  workplace_location : Val
  date_acquiring_type_id : Val
  start_date : Val
  start_month : Val
  start_year : Val
  date_ending_type_id : Val
  end_date : Val
  end_month : Val
  end_year : Val
  note : Val
  latest_submitted_date : String

/-- A `submitter_old_names` row. -/
structure SubmitterOldNameRow where
  submitter_id : ℕ
  nacc_id : Val
  index : Val
  title : Val
  first_name : Val
  last_name : Val
  title_en : Val
  first_name_en : Val
  last_name_en : Val
  latest_submitted_date : String

/-- A `spouse_infos` row. -/
structure SpouseRow where
  spouse_id : ℕ
  submitter_id : ℕ
  nacc_id : Val
  title : Val
  first_name : Val
  last_name : Val
  title_en : Val
  first_name_en : Val
  last_name_en : Val
  age : Val
  status : Val
  status_date : Val
  status_month : Val
  status_year : Val
  sub_district : Val
  district : Val
  province : Val
  post_code : Val
  phone_number : Val
  mobile_number : Val
  email : Val
  latest_submitted_date : String

/-- A `spouse_old_names` row. -/
structure SpouseOldNameRow where
  spouse_id : ℕ
  index : Val
  title : Val
  first_name : Val
  last_name : Val
  title_en : Val
  first_name_en : Val
  last_name_en : Val
  submitter_id : ℕ
  nacc_id : Val
  latest_submitted_date : String

/-- A `spouse_positions` row. -/
structure SpousePositionRow where
  spouse_id : ℕ
  submitter_id : ℕ
  nacc_id : Val
  position_period_type_id : Val
  index : Val
  position : Val
  workplace : Val
  workplace_location : Val
  note : Val
  latest_submitted_date : String

/-- A `relative_infos` row. -/
structure RelativeRow where
  relative_id : ℕ
  submitter_id : ℕ
  nacc_id : Val
  index : Val
  relationship_id : Val
  title : Val
  first_name : Val
  last_name : Val
  age : Val
  address : Val
  occupation : Val
  school : Val
  workplace : Val
  workplace_location : Val
  latest_submitted_date : String
  is_death : String

/-- A `statements` accumulator row. -/
structure StatementRow where
  nacc_id : Val
  statement_type_id : Val
  valuation_submitter : Val
  submitter_id : ℕ
  valuation_spouse : Val
  valuation_child : Val
  latest_submitted_date : String

/-- A `statement_details` accumulator row. -/
structure StatementDetailRow where
  nacc_id : Val
  submitter_id : ℕ
  statement_detail_type_id : Val
  index : Val
  detail : Val
  valuation_submitter : Val
  valuation_spouse : Val
  valuation_child : Val
  note : Val
  latest_submitted_date : String

/-- An `assets` accumulator row.  `asset_type_id` holds the local
`self._safe_get(asset, "asset_type_id", 39)` (`none` models Python `None`). -/
structure AssetRow where
  asset_id : ℕ
  submitter_id : ℕ
  nacc_id : Val
  index : Val
  asset_type_id : Option ℤ
  asset_type_other : Val
  asset_name : Val
  date_acquiring_type_id : Val
  acquiring_date : Val
  acquiring_month : Val
  acquiring_year : Val
  date_ending_type_id : Val
  ending_date : Val
  ending_month : Val
  ending_year : Val
  asset_acquisition_type_id : Val
  valuation : Val
  owner_by_submitter : String
  owner_by_spouse : String
  owner_by_child : String
  latest_submitted_date : String

/-- An `asset_land_infos` row. -/
structure LandRow where
  asset_id : ℕ
  nacc_id : Val
  land_type : Val
  land_number : Val
  area_rai : Val
  area_ngan : Val
  area_sqwa : Val
  province : Val
  latest_submitted_date : String

/-- An `asset_building_infos` row. -/
structure BuildingRow where
  asset_id : ℕ
  nacc_id : Val
  building_type : Val
  building_name : Val
  room_number : Val
  province : Val
  latest_submitted_date : String

/-- An `asset_vehicle_infos` row. -/
structure VehicleRow where
  asset_id : ℕ
  nacc_id : Val
  vehicle_type : Val
  brand : Val
  model : Val
  registration : Val
  province : Val
  latest_submitted_date : String

/-- An `asset_other_infos` row. -/
structure OtherRow where
  asset_id : ℕ
  nacc_id : Val
  description : Val
  latest_submitted_date : String

/-! ### `_process_statements`, `_process_statement_details`, `_process_relatives` -/

/-- Build one `statements` row (`_process_statements` loop body). -/
def statementRowOf (sid : ℕ) (nid : Val) (today : String) (s : Stmt) : StatementRow :=
  { nacc_id := nid,
    statement_type_id := sg Val.vint s.statement_type_id (Val.vstr ""),
    valuation_submitter := sg Val.vfloat s.valuation_submitter (Val.vstr ""),
    submitter_id := sid,
    valuation_spouse := sg Val.vfloat s.valuation_spouse (Val.vstr ""),
    valuation_child := sg Val.vfloat s.valuation_child (Val.vstr ""),
    latest_submitted_date := today }

/-- `JSONToCSVConverter._process_statements`: one row per payload statement. -/
def processStatements (sid : ℕ) (nid : Val) (today : String) (l : List Stmt) :
    List StatementRow :=
  l.map (statementRowOf sid nid today)

/-- Build one `statement_details` row. -/
def statementDetailRowOf (sid : ℕ) (nid : Val) (today : String) (d : StmtDetail) :
    StatementDetailRow :=
  { nacc_id := nid,
    submitter_id := sid,
    statement_detail_type_id := sg Val.vint d.statement_detail_type_id (Val.vstr ""),
    index := sg Val.vint d.index (Val.vint 1),
    detail := sg Val.vstr d.detail (Val.vstr ""),
    valuation_submitter := sg Val.vfloat d.valuation_submitter (Val.vstr ""),
    valuation_spouse := sg Val.vfloat d.valuation_spouse (Val.vstr ""),
    valuation_child := sg Val.vfloat d.valuation_child (Val.vstr ""),
    note := sg Val.vstr d.note (Val.vstr ""),
    latest_submitted_date := today }

/-- `JSONToCSVConverter._process_statement_details`. -/
def processStatementDetails (sid : ℕ) (nid : Val) (today : String)
    (l : List StmtDetail) : List StatementDetailRow :=
  l.map (statementDetailRowOf sid nid today)

/-- Build one `relative_infos` row for the given surrogate `relative_id`. -/
def relativeRowOf (rid sid : ℕ) (nid : Val) (today : String) (r : RelativeP) :
    RelativeRow :=
  { relative_id := rid,
    submitter_id := sid,
    nacc_id := nid,
    index := sg Val.vint r.index (Val.vint 1),
    relationship_id := sg Val.vint r.relationship_id (Val.vstr ""),
    title := sg Val.vstr r.title (Val.vstr ""),
    first_name := sg Val.vstr r.first_name (Val.vstr ""),
    last_name := sg Val.vstr r.last_name (Val.vstr ""),
    age := sg Val.vint r.age (Val.vstr ""),
    address := sg Val.vstr r.address (Val.vstr ""),
    occupation := sg Val.vstr r.occupation (Val.vstr ""),
    school := sg Val.vstr r.school (Val.vstr ""),
    workplace := sg Val.vstr r.workplace (Val.vstr ""),
    workplace_location := sg Val.vstr r.workplace_location (Val.vstr ""),
    latest_submitted_date := today,
    is_death := if sgBoolTruthy r.is_death then "TRUE" else "FALSE" }

/-- `JSONToCSVConverter._process_relatives`: one row per relative, advancing
the shared `relative_id` counter.  Returns the rows and the new counter. -/
def processRelatives (sid : ℕ) (nid : Val) (today : String) (rid : ℕ) :
    List RelativeP → List RelativeRow × ℕ
  | [] => ([], rid)
  | r :: t =>
    let rest := processRelatives sid nid today (rid + 1) t
    (relativeRowOf rid sid nid today r :: rest.1, rest.2)

/-! ### `_process_assets` -/

/-- The three free-text extraction profiles invoked by `_process_assets`
(`_parse_land_info`, `_parse_building_info`, `_parse_vehicle_info`), taking
the asset name (`None` possible) and the dispatched type code. -/
structure Parsers where
  parseLand : Option String → Option ℤ → Dict
  parseBuilding : Option String → Option ℤ → Dict
  parseVehicle : Option String → Option ℤ → Dict

/-- Python `x in [c₁, …]` on the dispatched type code (`None in [...]` is
`False`). -/
def optMem (o : Option ℤ) (l : List ℤ) : Bool :=
  match o with
  | some t => t ∈ l
  | none => false

/-- The nested-or-derived info dict used for a land row:
`land_info` is re-derived from `asset_name` when the nested object is
missing, falsy, or lacks the key identifying field. -/
def effInfo (nested : Field Dict) (keyField : String)
    (parse : Option String → Option ℤ → Dict) (name : Option String)
    (tid : Option ℤ) : Dict :=
  match pyGetD nested [] with
  | none => parse name tid
  | some d =>
    if d.isEmpty ∨ ¬ truthy (pyDictGet d keyField) then parse name tid else d

/-- One iteration of the `_process_assets` loop: the asset row plus at most
one row for each conditional sub-table. -/
def processAsset (ps : Parsers) (sid : ℕ) (nid : Val) (today : String)
    (aid : ℕ) (a : AssetP) :
    AssetRow × Option LandRow × Option BuildingRow × Option VehicleRow ×
      Option OtherRow :=
  let atid : Option ℤ := pyGetD a.asset_type_id 39
  let name : Option String := pyGetD a.asset_name ""
  let row : AssetRow :=
    { asset_id := aid,
      submitter_id := sid,
      nacc_id := nid,
      index := sg Val.vint a.index (Val.vint 1),
      asset_type_id := atid,
      asset_type_other := sg Val.vstr a.asset_type_other (Val.vstr ""),
      asset_name := sg Val.vstr a.asset_name (Val.vstr ""),
      date_acquiring_type_id := sg Val.vint a.date_acquiring_type_id (Val.vstr ""),
      acquiring_date := sg Val.vint a.acquiring_date (Val.vstr ""),
      acquiring_month := sg Val.vint a.acquiring_month (Val.vstr ""),
      acquiring_year := sg Val.vint a.acquiring_year (Val.vstr ""),
      date_ending_type_id := sg Val.vint a.date_ending_type_id (Val.vstr ""),
      ending_date := sg Val.vint a.ending_date (Val.vstr ""),
      ending_month := sg Val.vint a.ending_month (Val.vstr ""),
      ending_year := sg Val.vint a.ending_year (Val.vstr ""),
      asset_acquisition_type_id := sg Val.vint a.asset_acquisition_type_id (Val.vstr ""),
      valuation := sg Val.vfloat a.valuation (Val.vstr ""),
      owner_by_submitter := if sgBoolTruthy a.owner_by_submitter then "TRUE" else "FALSE",
      owner_by_spouse := if sgBoolTruthy a.owner_by_spouse then "TRUE" else "FALSE",
      owner_by_child := if sgBoolTruthy a.owner_by_child then "TRUE" else "FALSE",
      latest_submitted_date := today }
  let landRow : Option LandRow :=
    if optMem atid [1, 2, 3, 4] then
      let li := effInfo a.land_info "land_number" ps.parseLand name atid
      some { asset_id := aid, nacc_id := nid,
             land_type := dictSafeGet li "land_type" (Val.vstr ""),
             land_number := dictSafeGet li "land_number" (Val.vstr ""),
             area_rai := dictSafeGet li "area_rai" (Val.vstr ""),
             area_ngan := dictSafeGet li "area_ngan" (Val.vstr ""),
             area_sqwa := dictSafeGet li "area_sqwa" (Val.vstr ""),
             province := dictSafeGet li "province" (Val.vstr ""),
             latest_submitted_date := today }
    else none
  let buildingRow : Option BuildingRow :=
    if optMem atid [10, 11, 13, 37] then
      let bi := effInfo a.building_info "building_type" ps.parseBuilding name atid
      some { asset_id := aid, nacc_id := nid,
             building_type := dictSafeGet bi "building_type" (Val.vstr ""),
             building_name := dictSafeGet bi "building_name" (Val.vstr ""),
             room_number := dictSafeGet bi "room_number" (Val.vstr ""),
             province := dictSafeGet bi "province" (Val.vstr ""),
             latest_submitted_date := today }
    else none
  let vehicleRow : Option VehicleRow :=
    if optMem atid [18, 19, 20] then
      let vi := effInfo a.vehicle_info "brand" ps.parseVehicle name atid
      some { asset_id := aid, nacc_id := nid,
             vehicle_type := dictSafeGet vi "vehicle_type" (Val.vstr ""),
             brand := dictSafeGet vi "brand" (Val.vstr ""),
             model := dictSafeGet vi "model" (Val.vstr ""),
             registration := dictSafeGet vi "registration" (Val.vstr ""),
             province := dictSafeGet vi "province" (Val.vstr ""),
             latest_submitted_date := today }
    else none
  let otherRow : Option OtherRow :=
    if optMem atid [1, 2, 3, 4, 10, 11, 13, 18, 19, 20, 37] then none
    else
      some { asset_id := aid, nacc_id := nid,
             description := sg Val.vstr a.asset_name (Val.vstr ""),
             latest_submitted_date := today }
  (row, landRow, buildingRow, vehicleRow, otherRow)

/-- `JSONToCSVConverter._process_assets`: process each asset, advancing the
shared `asset_id` counter; returns the five row lists and the new counter. -/
def processAssets (ps : Parsers) (sid : ℕ) (nid : Val) (today : String)
    (aid : ℕ) :
    List AssetP →
      List AssetRow × List LandRow × List BuildingRow × List VehicleRow ×
        List OtherRow × ℕ
  | [] => ([], [], [], [], [], aid)
  | a :: t =>
    let r := processAsset ps sid nid today aid a
    let rest := processAssets ps sid nid today (aid + 1) t
    (r.1 :: rest.1, r.2.1.toList ++ rest.2.1, r.2.2.1.toList ++ rest.2.2.1,
     r.2.2.2.1.toList ++ rest.2.2.2.1, r.2.2.2.2.toList ++ rest.2.2.2.2.1,
     rest.2.2.2.2.2)

/-! ### `_process_submitter` and `_process_spouse` -/

/-- Build one `submitter_positions` row. -/
def submitterPositionRowOf (sid : ℕ) (nid : Val) (today : String)
    (p : PositionP) : SubmitterPositionRow :=
  { submitter_id := sid,
    nacc_id := nid,
    position_period_type_id := sg Val.vint p.position_period_type_id (Val.vstr ""),
    index := sg Val.vint p.index (Val.vint 0),
    position := sg Val.vstr p.position (Val.vstr ""),
    position_category_type_id := sg Val.vint p.position_category_type_id (Val.vstr ""),
    workplace := sg Val.vstr p.workplace (Val.vstr ""),
    workplace_location := sg Val.vstr p.workplace_location (Val.vstr ""),
    date_acquiring_type_id := sg Val.vint p.date_acquiring_type_id (Val.vstr ""),
    start_date := sg Val.vint p.start_date (Val.vstr ""),
    start_month := sg Val.vint p.start_month (Val.vstr ""),
    start_year := sg Val.vint p.start_year (Val.vstr ""),
    date_ending_type_id := sg Val.vint p.date_ending_type_id (Val.vstr ""),
    end_date := sg Val.vint p.end_date (Val.vstr ""),
    end_month := sg Val.vint p.end_month (Val.vstr ""),
    end_year := sg Val.vint p.end_year (Val.vstr ""),
    note := sg Val.vstr p.note (Val.vstr ""),
    latest_submitted_date := today }

/-- Build one `submitter_old_names` row, `idx` being the 1-based
`enumerate` position. -/
def submitterOldNameRowOf (sid : ℕ) (nid : Val) (today : String) (idx : ℕ)
    (o : OldNameE) : SubmitterOldNameRow :=
  match o with
  | OldNameE.ostr s =>
    { submitter_id := sid, nacc_id := nid, index := Val.vint idx,
      title := Val.vstr "", first_name := Val.vstr s, last_name := Val.vstr "",
      title_en := Val.vstr "", first_name_en := Val.vstr "",
      last_name_en := Val.vstr "", latest_submitted_date := today }
  | OldNameE.oobj o =>
    { submitter_id := sid, nacc_id := nid,
      index := sg Val.vint o.index (Val.vint idx),
      title := sg Val.vstr o.title (Val.vstr ""),
      first_name := sg Val.vstr o.first_name (Val.vstr ""),
      last_name := sg Val.vstr o.last_name (Val.vstr ""),
      title_en := sg Val.vstr o.title_en (Val.vstr ""),
      first_name_en := sg Val.vstr o.first_name_en (Val.vstr ""),
      last_name_en := sg Val.vstr o.last_name_en (Val.vstr ""),
      latest_submitted_date := today }

/-- The `enumerate(old_names, 1)` loop of `_process_submitter`. -/
def submitterOldNameRows (sid : ℕ) (nid : Val) (today : String) (idx : ℕ) :
    List OldNameE → List SubmitterOldNameRow
  | [] => []
  | o :: t =>
    submitterOldNameRowOf sid nid today idx o ::
      submitterOldNameRows sid nid today (idx + 1) t

/-- `JSONToCSVConverter._process_submitter`: a falsy (absent/null)
`submitter_info` contributes no rows at all. -/
def processSubmitter (data : ParsedDoc) (sid : ℕ) (nid : Val) (today : String) :
    List SubmitterRow × List SubmitterPositionRow × List SubmitterOldNameRow :=
  match pyGet data.submitter_info with
  | none => ([], [], [])
  | some sub =>
    let row : SubmitterRow :=
      { submitter_id := sid,
        nacc_id := nid,
        title := sg Val.vstr sub.title (Val.vstr ""),
        first_name := sg Val.vstr sub.first_name (Val.vstr ""),
        last_name := sg Val.vstr sub.last_name (Val.vstr ""),
        age := sg Val.vint sub.age (Val.vstr ""),
        marital_status := sg Val.vstr sub.marital_status (Val.vstr ""),
        status_date := sg Val.vint sub.status_date (Val.vstr ""),
        status_month := sg Val.vint sub.status_month (Val.vstr ""),
        status_year := sg Val.vint sub.status_year (Val.vstr ""),
        sub_district := sg Val.vstr sub.sub_district (Val.vstr ""),
        district := sg Val.vstr sub.district (Val.vstr ""),
        province := sg Val.vstr sub.province (Val.vstr ""),
        post_code := sg Val.vstr sub.post_code (Val.vstr ""),
        phone_number := sg Val.vstr sub.phone_number (Val.vstr ""),
        mobile_number := sg Val.vstr sub.mobile_number (Val.vstr ""),
        email := sg Val.vstr sub.email (Val.vstr ""),
        latest_submitted_date := today }
    ([row],
     (listD sub.positions []).map (submitterPositionRowOf sid nid today),
     submitterOldNameRows sid nid today 1 (listD sub.old_names []))

/-- Build one `spouse_positions` row. -/
def spousePositionRowOf (spid sid : ℕ) (nid : Val) (today : String)
    (p : PositionP) : SpousePositionRow :=
  { spouse_id := spid,
    submitter_id := sid,
    nacc_id := nid,
    position_period_type_id := sg Val.vint p.position_period_type_id (Val.vstr ""),
    index := sg Val.vint p.index (Val.vint 0),
    position := sg Val.vstr p.position (Val.vstr ""),
    workplace := sg Val.vstr p.workplace (Val.vstr ""),
    workplace_location := sg Val.vstr p.workplace_location (Val.vstr ""),
    note := sg Val.vstr p.note (Val.vstr ""),
    latest_submitted_date := today }

/-- Build one `spouse_old_names` row. -/
def spouseOldNameRowOf (spid sid : ℕ) (nid : Val) (today : String) (idx : ℕ)
    (o : OldNameE) : SpouseOldNameRow :=
  match o with
  | OldNameE.ostr s =>
    { spouse_id := spid, index := Val.vint idx,
      title := Val.vstr "", first_name := Val.vstr s, last_name := Val.vstr "",
      title_en := Val.vstr "", first_name_en := Val.vstr "",
      last_name_en := Val.vstr "",
      submitter_id := sid, nacc_id := nid, latest_submitted_date := today }
  | OldNameE.oobj o =>
    { spouse_id := spid,
      index := sg Val.vint o.index (Val.vint idx),
      title := sg Val.vstr o.title (Val.vstr ""),
      first_name := sg Val.vstr o.first_name (Val.vstr ""),
      last_name := sg Val.vstr o.last_name (Val.vstr ""),
      title_en := sg Val.vstr o.title_en (Val.vstr ""),
      first_name_en := sg Val.vstr o.first_name_en (Val.vstr ""),
      last_name_en := sg Val.vstr o.last_name_en (Val.vstr ""),
      submitter_id := sid, nacc_id := nid, latest_submitted_date := today }

/-- The `enumerate(old_names, 1)` loop of `_process_spouse`. -/
def spouseOldNameRows (spid sid : ℕ) (nid : Val) (today : String) (idx : ℕ) :
    List OldNameE → List SpouseOldNameRow
  | [] => []
  | o :: t =>
    spouseOldNameRowOf spid sid nid today idx o ::
      spouseOldNameRows spid sid nid today (idx + 1) t

/-- `JSONToCSVConverter._process_spouse`: a falsy `spouse_info` contributes
no rows and leaves the `spouse_id` counter untouched; otherwise one spouse
row is emitted under the next counter value.  Returns the rows and the new
counter. -/
def processSpouse (data : ParsedDoc) (sid : ℕ) (nid : Val) (today : String)
    (spidCounter : ℕ) :
    List SpouseRow × List SpouseOldNameRow × List SpousePositionRow × ℕ :=
  match pyGet data.spouse_info with
  | none => ([], [], [], spidCounter)
  | some sp =>
    let spid := spidCounter
    let row : SpouseRow :=
      { spouse_id := spid,
        submitter_id := sid,
        nacc_id := nid,
        title := sg Val.vstr sp.title (Val.vstr ""),
        first_name := sg Val.vstr sp.first_name (Val.vstr ""),
        last_name := sg Val.vstr sp.last_name (Val.vstr ""),
        title_en := sg Val.vstr sp.title_en (Val.vstr ""),
        first_name_en := sg Val.vstr sp.first_name_en (Val.vstr ""),
        last_name_en := sg Val.vstr sp.last_name_en (Val.vstr ""),
        age := sg Val.vint sp.age (Val.vstr ""),
        status := sg Val.vstr sp.status (Val.vstr ""),
        status_date := sg Val.vint sp.status_date (Val.vstr ""),
        status_month := sg Val.vint sp.status_month (Val.vstr ""),
        status_year := sg Val.vint sp.status_year (Val.vstr ""),
        sub_district := sg Val.vstr sp.sub_district (Val.vstr ""),
        district := sg Val.vstr sp.district (Val.vstr ""),
        province := sg Val.vstr sp.province (Val.vstr ""),
        post_code := sg Val.vstr sp.post_code (Val.vstr ""),
        phone_number := sg Val.vstr sp.phone_number (Val.vstr ""),
        mobile_number := sg Val.vstr sp.mobile_number (Val.vstr ""),
        email := sg Val.vstr sp.email (Val.vstr ""),
        latest_submitted_date := today }
    ([row],
     spouseOldNameRows spid sid nid today 1 (listD sp.old_names []),
     (listD sp.positions []).map (spousePositionRowOf spid sid nid today),
     spidCounter + 1)

/-! ### Reference registries (`load_input_data` lookup tables) -/

/-- One loaded `nacc_detail` registry row (all cells are CSV strings). -/
structure NaccDetail where
  title : String := ""
  first_name : String := ""
  last_name : String := ""
  position : String := ""
  submitted_case : String := ""
  submitted_date : String := ""
  disclosure_announcement_date : String := ""
  disclosure_start_date : String := ""
  disclosure_end_date : String := ""
  agency : String := ""
  date_by_submitted_case : String := ""
  royal_start_date : String := ""
  submitter_id : String := ""

/-- One loaded `submitter_info` registry row. -/
structure SubmitterInput where
  title : String := ""
  first_name : String := ""
  last_name : String := ""
  age : String := ""
  status : String := ""
  status_date : String := ""
  status_month : String := ""
  status_year : String := ""
  sub_district : String := ""
  district : String := ""
  province : String := ""
  post_code : String := ""
  phone_number : String := ""
  mobile_number : String := ""
  email : String := ""

/-- Field access through `self.input_nacc_detail.get(str(nacc_id), {})`
followed by `.get(field, '')`: a registry miss reads as the empty string. -/
def ndGet (d : Option NaccDetail) (f : NaccDetail → String) : String :=
  match d with
  | none => ""
  | some r => f r

/-- Same access pattern for the submitter registry. -/
def siGet (d : Option SubmitterInput) (f : SubmitterInput → String) : String :=
  match d with
  | none => ""
  | some r => f r

/-! ### `_generate_summary` -/

/-- Python `str.strip()`: drop leading and trailing whitespace. -/
def pyStrip (s : String) : String :=
  String.mk
    (((s.toList.dropWhile Char.isWhitespace).reverse.dropWhile
      Char.isWhitespace).reverse)

/-- The local helper `get_value` of `_generate_summary`:
`val if val and val.strip() else "NONE"`. -/
def getValue (v : String) : String :=
  if v ≠ "" ∧ pyStrip v ≠ "" then v else "NONE"

/-- Left-pad with zeros (`str.zfill`). -/
def zfill (w : ℕ) (s : String) : String :=
  String.mk (List.replicate (w - s.length) '0') ++ s

/-- `JSONToCSVConverter._format_date`: `D/M/YYYY`-style dates become
`YYYY-MM-DD`; anything else passes through (empty input gives the
sentinel). -/
def formatDateRaw (s : String) : String :=
  if s = "" then "NONE"
  else if s.contains '/' then
    match s.splitOn "/" with
    | [day, month, year] => year ++ "-" ++ zfill 2 month ++ "-" ++ zfill 2 day
    | _ => s
  else s

/-- The local helper `format_date` of `_generate_summary`. -/
def formatDate (v : String) : String :=
  if v ≠ "" ∧ pyStrip v ≠ "" then formatDateRaw v else "NONE"

/-- Python `a or b` on strings (`""` is falsy). -/
def pyOrS (a b : String) : String :=
  if a ≠ "" then a else b

/-- Python `x or "NONE"` on a computed numeric total. -/
def orNoneQ (q : ℚ) : Val :=
  if q ≠ 0 then Val.vfloat q else Val.vstr "NONE"

/-- Python `x or "NONE"` on a computed count. -/
def orNoneN (n : ℕ) : Val :=
  if n ≠ 0 then Val.vint n else Val.vstr "NONE"

/-- `s.get(key, 0) or 0` on a valuation field of the payload. -/
def valOrZero (f : Field ℚ) : ℚ :=
  match f with
  | some (some q) => q
  | _ => 0

/-- In-memory statement total (`total_valuation_submitter` and friends in
`_generate_summary`). -/
def memStatementTotal (proj : Stmt → Field ℚ) (l : List Stmt) : ℚ :=
  (l.map (fun s => valOrZero (proj s))).sum

/-- `a.get("asset_type_id") in range(1, 10)` (the land test of
`_generate_summary`). -/
def memIsLand (a : AssetP) : Bool :=
  match pyGet a.asset_type_id with
  | some t => decide (1 ≤ t) && decide (t < 10)
  | none => false

/-- `a.get("asset_type_id") in range(10, 18)`. -/
def memIsBuilding (a : AssetP) : Bool :=
  match pyGet a.asset_type_id with
  | some t => decide (10 ≤ t) && decide (t < 18)
  | none => false

/-- `a.get("asset_type_id") in range(18, 22)`. -/
def memIsVehicle (a : AssetP) : Bool :=
  match pyGet a.asset_type_id with
  | some t => decide (18 ≤ t) && decide (t < 22)
  | none => false

/-- `a.get("asset_type_id") and a.get("asset_type_id") >= 22`. -/
def memIsOther (a : AssetP) : Bool :=
  match pyGet a.asset_type_id with
  | some t => !(t == 0) && decide (22 ≤ t)
  | none => false

/-- In-memory asset valuation sum over a filter
(`sum(a.get("valuation", 0) or 0 for a in assets if cond(a))`). -/
def memAssetVal (cond : AssetP → Bool) (l : List AssetP) : ℚ :=
  ((l.filter cond).map (fun a => valOrZero a.valuation)).sum

/-- Truthiness of `a.get("owner_by_submitter")` and friends. -/
def memOwner (proj : AssetP → Field Bool) (a : AssetP) : Bool :=
  match pyGet (proj a) with
  | some b => b
  | none => false

/-- `1 if any(r.get("is_death") for r in relatives) else 0`. -/
def memDeathFlag (l : List RelativeP) : ℕ :=
  if l.any (fun r => match pyGet r.is_death with
                     | some b => b
                     | none => false) then 1 else 0

/-- `1 if any(d.get("note") for d in statement_details) else 0`. -/
def memDetailNote (l : List StmtDetail) : ℕ :=
  if l.any (fun d => match pyGet d.note with
                     | some s => !(s == "")
                     | none => false) then 1 else 0

/-- `JSONToCSVConverter._generate_summary`: the summary dict literal, built
from the two input registries for the base columns and the LLM payload for
the spouse and calculated columns.  `spidCounter` is the value of
`self.spouse_id_counter` when the summary is generated (after
`_process_spouse` ran). -/
def generateSummary (ndReg : String → Option NaccDetail)
    (siReg : String → Option SubmitterInput) (data : ParsedDoc)
    (submitter_id : ℕ) (nacc_id : Val) (nacc_id_str : String) (doc_id : Val)
    (spidCounter : ℕ) : Dict :=
  let spouse := pyGet data.spouse_info
  let statements := listD data.statements []
  let statement_details := listD data.statement_details []
  let assets := listD data.assets []
  let relatives := listD data.relatives []
  let total_valuation_submitter := memStatementTotal (fun s => s.valuation_submitter) statements
  let total_valuation_spouse := memStatementTotal (fun s => s.valuation_spouse) statements
  let total_valuation_child := memStatementTotal (fun s => s.valuation_child) statements
  let asset_land_count := assets.countP (fun a => memIsLand a)
  let asset_building_count := assets.countP (fun a => memIsBuilding a)
  let asset_vehicle_count := assets.countP (fun a => memIsVehicle a)
  let asset_other_count := assets.countP (fun a => memIsOther a)
  let asset_total := memAssetVal (fun _ => true) assets
  let asset_land_val := memAssetVal memIsLand assets
  let asset_building_val := memAssetVal memIsBuilding assets
  let asset_vehicle_val := memAssetVal memIsVehicle assets
  let asset_other_val := memAssetVal memIsOther assets
  let asset_submitter_val := memAssetVal (memOwner (fun a => a.owner_by_submitter)) assets
  let asset_spouse_val := memAssetVal (memOwner (fun a => a.owner_by_spouse)) assets
  let asset_child_val := memAssetVal (memOwner (fun a => a.owner_by_child)) assets
  let has_death_flag := memDeathFlag relatives
  let has_detail_note := memDetailNote statement_details
  let nacc_detail := ndReg nacc_id_str
  let input_submitter_id :=
    pyOrS (ndGet nacc_detail (fun r => r.submitter_id)) (toString submitter_id)
  let submitter_input := siReg input_submitter_id
  let spouseCell (f : SpouseP → Val) : Val :=
    match spouse with
    | some sp => f sp
    | none => Val.vstr "NONE"
  [("id", nacc_id),
   ("doc_id", doc_id),
   ("nd_title", Val.vstr (pyOrS (getValue (ndGet nacc_detail (fun r => r.title)))
      (getValue (siGet submitter_input (fun r => r.title))))),
   ("nd_first_name", Val.vstr (pyOrS (getValue (ndGet nacc_detail (fun r => r.first_name)))
      (getValue (siGet submitter_input (fun r => r.first_name))))),
   ("nd_last_name", Val.vstr (pyOrS (getValue (ndGet nacc_detail (fun r => r.last_name)))
      (getValue (siGet submitter_input (fun r => r.last_name))))),
   ("nd_position", Val.vstr (getValue (ndGet nacc_detail (fun r => r.position)))),
   ("submitted_date", Val.vstr (formatDate (ndGet nacc_detail (fun r => r.submitted_date)))),
   ("disclosure_announcement_date",
    Val.vstr (formatDate (ndGet nacc_detail (fun r => r.disclosure_announcement_date)))),
   ("disclosure_start_date",
    Val.vstr (formatDate (ndGet nacc_detail (fun r => r.disclosure_start_date)))),
   ("disclosure_end_date",
    Val.vstr (formatDate (ndGet nacc_detail (fun r => r.disclosure_end_date)))),
   ("date_by_submitted_case",
    Val.vstr (formatDate (ndGet nacc_detail (fun r => r.date_by_submitted_case)))),
   ("royal_start_date",
    Val.vstr (formatDate (ndGet nacc_detail (fun r => r.royal_start_date)))),
   ("agency", Val.vstr (getValue (ndGet nacc_detail (fun r => r.agency)))),
   ("submitter_id", Val.vstr input_submitter_id),
   ("submitter_title", Val.vstr (getValue (siGet submitter_input (fun r => r.title)))),
   ("submitter_first_name", Val.vstr (getValue (siGet submitter_input (fun r => r.first_name)))),
   ("submitter_last_name", Val.vstr (getValue (siGet submitter_input (fun r => r.last_name)))),
   ("submitter_age", Val.vstr (getValue (siGet submitter_input (fun r => r.age)))),
   ("submitter_marital_status", Val.vstr (getValue (siGet submitter_input (fun r => r.status)))),
   ("submitter_status_date", Val.vstr (getValue (siGet submitter_input (fun r => r.status_date)))),
   ("submitter_status_month", Val.vstr (getValue (siGet submitter_input (fun r => r.status_month)))),
   ("submitter_status_year", Val.vstr (getValue (siGet submitter_input (fun r => r.status_year)))),
   ("submitter_sub_district", Val.vstr (getValue (siGet submitter_input (fun r => r.sub_district)))),
   ("submitter_district", Val.vstr (getValue (siGet submitter_input (fun r => r.district)))),
   ("submitter_province", Val.vstr (getValue (siGet submitter_input (fun r => r.province)))),
   ("submitter_post_code", Val.vstr (getValue (siGet submitter_input (fun r => r.post_code)))),
   ("submitter_phone_number", Val.vstr (getValue (siGet submitter_input (fun r => r.phone_number)))),
   ("submitter_mobile_number", Val.vstr (getValue (siGet submitter_input (fun r => r.mobile_number)))),
   ("submitter_email", Val.vstr (getValue (siGet submitter_input (fun r => r.email)))),
   ("spouse_id", spouseCell (fun _ => Val.vint ((spidCounter : ℤ) - 1))),
   ("spouse_title", spouseCell (fun sp => sg Val.vstr sp.title (Val.vstr "NONE"))),
   ("spouse_first_name", spouseCell (fun sp => sg Val.vstr sp.first_name (Val.vstr "NONE"))),
   ("spouse_last_name", spouseCell (fun sp => sg Val.vstr sp.last_name (Val.vstr "NONE"))),
   ("spouse_age", spouseCell (fun sp => sg Val.vint sp.age (Val.vstr "NONE"))),
   ("spouse_status", spouseCell (fun sp => sg Val.vstr sp.status (Val.vstr "NONE"))),
   ("spouse_status_date", spouseCell (fun sp => sg Val.vint sp.status_date (Val.vstr "NONE"))),
   ("spouse_status_month", spouseCell (fun sp => sg Val.vint sp.status_month (Val.vstr "NONE"))),
   ("spouse_status_year", spouseCell (fun sp => sg Val.vint sp.status_year (Val.vstr "NONE"))),
   ("statement_valuation_submitter_total", orNoneQ total_valuation_submitter),
   ("statement_valuation_spouse_total", orNoneQ total_valuation_spouse),
   ("statement_valuation_child_total", orNoneQ total_valuation_child),
   ("statement_detail_count", orNoneN statement_details.length),
   ("has_statement_detail_note", Val.vint has_detail_note),
   ("asset_count", orNoneN assets.length),
   ("asset_land_count", orNoneN asset_land_count),
   ("asset_building_count", orNoneN asset_building_count),
   ("asset_vehicle_count", orNoneN asset_vehicle_count),
   ("asset_other_count", orNoneN asset_other_count),
   ("asset_total_valuation_amount", orNoneQ asset_total),
   ("asset_land_valuation_amount", orNoneQ asset_land_val),
   ("asset_building_valuation_amount", orNoneQ asset_building_val),
   ("asset_vehicle_valuation_amount", orNoneQ asset_vehicle_val),
   ("asset_other_asset_valuation_amount", orNoneQ asset_other_val),
   ("asset_valuation_submitter_amount", orNoneQ asset_submitter_val),
   ("asset_valuation_spouse_amount", orNoneQ asset_spouse_val),
   ("asset_valuation_child_amount", orNoneQ asset_child_val),
   ("relative_count", Val.vint relatives.length),
   ("relative_has_death_flag", Val.vint has_death_flag)]

/-! ### `process_document` -/

/-- The converter's in-memory accumulators and surrogate-key counters. -/
structure Accums where
  statements : List StatementRow := []
  statement_details : List StatementDetailRow := []
  assets : List AssetRow := []
  asset_land_infos : List LandRow := []
  asset_building_infos : List BuildingRow := []
  asset_vehicle_infos : List VehicleRow := []
  asset_other_infos : List OtherRow := []
  submitter_infos : List SubmitterRow := []
  submitter_old_names : List SubmitterOldNameRow := []
  submitter_positions : List SubmitterPositionRow := []
  spouse_infos : List SpouseRow := []
  spouse_old_names : List SpouseOldNameRow := []
  spouse_positions : List SpousePositionRow := []
  relative_infos : List RelativeRow := []
  summaries : List Dict := []
  asset_id_counter : ℕ := 1
  relative_id_counter : ℕ := 1
  submitter_id_counter : ℕ := 1
  spouse_id_counter : ℕ := 1

/-- `JSONToCSVConverter.process_document`: normalize one canonical document
into the accumulators.  `override_doc_id` / `override_nacc_id` are the
registry-sourced identifiers passed by `process_from_doc_info`; when
present they replace the identifiers embedded in the payload.  Returns the
new state and the `submitter_id` used. -/
def processDocument (ps : Parsers) (ndReg : String → Option NaccDetail)
    (siReg : String → Option SubmitterInput) (today : String) (st : Accums)
    (data : ParsedDoc) (submitter_idArg : Option ℕ)
    (override_doc_id : Option String) (override_nacc_id : Option ℤ) :
    Accums × ℕ :=
  let sid := submitter_idArg.getD st.submitter_id_counter
  let sidCounter :=
    match submitter_idArg with
    | none => st.submitter_id_counter + 1
    | some _ => st.submitter_id_counter
  let doc_id : Val :=
    match override_doc_id with
    | some d => Val.vstr d
    | none => sg Val.vstr data.doc_id (Val.vstr "")
  let nacc_id : Val :=
    match override_nacc_id with
    | some n => Val.vint n
    | none => sg Val.vint data.nacc_id (Val.vint 0)
  let nacc_id_str : String :=
    match override_nacc_id with
    | some n => toString n
    | none =>
      match pyGetD data.nacc_id 0 with
      | some n => toString n
      | none => "None"
  let subr := processSubmitter data sid nacc_id today
  let spr := processSpouse data sid nacc_id today st.spouse_id_counter
  let relr := processRelatives sid nacc_id today st.relative_id_counter
    (listD data.relatives [])
  let stmtr := processStatements sid nacc_id today (listD data.statements [])
  let detr := processStatementDetails sid nacc_id today
    (listD data.statement_details [])
  let astr := processAssets ps sid nacc_id today st.asset_id_counter
    (listD data.assets [])
  let summary := generateSummary ndReg siReg data sid nacc_id nacc_id_str
    doc_id spr.2.2.2
  ({ statements := st.statements ++ stmtr,
     statement_details := st.statement_details ++ detr,
     assets := st.assets ++ astr.1,
     asset_land_infos := st.asset_land_infos ++ astr.2.1,
     asset_building_infos := st.asset_building_infos ++ astr.2.2.1,
     asset_vehicle_infos := st.asset_vehicle_infos ++ astr.2.2.2.1,
     asset_other_infos := st.asset_other_infos ++ astr.2.2.2.2.1,
     submitter_infos := st.submitter_infos ++ subr.1,
     submitter_old_names := st.submitter_old_names ++ subr.2.2,
     submitter_positions := st.submitter_positions ++ subr.2.1,
     spouse_infos := st.spouse_infos ++ spr.1,
     spouse_old_names := st.spouse_old_names ++ spr.2.1,
     spouse_positions := st.spouse_positions ++ spr.2.2.1,
     relative_infos := st.relative_infos ++ relr.1,
     summaries := st.summaries ++ [summary],
     asset_id_counter := astr.2.2.2.2.2,
     relative_id_counter := relr.2,
     submitter_id_counter := sidCounter,
     spouse_id_counter := spr.2.2.2 }, sid)

/-! ### The SQLite side: `_insert_*` cell preparation and the validation
query of `run_validation_query`, restricted to one document's rows (one
`nacc_id` group). -/

/-- The `x if x else None` pattern used by every `_insert_*` method on
numeric cells: a falsy cell (empty string, `None`, `0`) is stored as SQL
`NULL`, anything else as its numeric value. -/
def insVal (v : Val) : Option ℚ :=
  if truthy v then
    match v with
    | Val.vfloat q => some q
    | Val.vint n => some (n : ℚ)
    | _ => none
  else none

/-- SQLite `SUM` over one group's column: `NULL` when no non-`NULL` input
exists (in the validation query an absent group also surfaces as `NULL`
through the `LEFT JOIN`, which this same `none` models). -/
def sqlSum (l : List (Option ℚ)) : Option ℚ :=
  match l.reduceOption with
  | [] => none
  | _ => some l.reduceOption.sum

/-- SQLite `COUNT(*)` of one group, `NULL` (via the `LEFT JOIN`) when the
group is absent. -/
def sqlCount {α : Type} (l : List α) : Option ℕ :=
  if l.isEmpty then none else some l.length

/-- SQLite `SUM(count)` over `asset_other_asset_info`, where every row is
inserted with `count = 1`. -/
def sqlSumOnes {α : Type} (l : List α) : Option ℕ :=
  if l.isEmpty then none else some (l.map (fun _ => 1)).sum

/-- SQLite `MAX(CASE WHEN flag THEN 1 ELSE 0 END)` over one group. -/
def sqlMaxFlag (l : List Bool) : Option ℕ :=
  if l.isEmpty then none else some (if l.any id then 1 else 0)

/-- The built-in `asset_type` reference table (`_insert_asset_type`):
type code to `asset_type_main_type_name`, `none` when the code has no row
(then every `CASE` comparison on it is SQL `NULL`). -/
def assetTypeMainName (t : Option ℤ) : Option String :=
  match t with
  | none => none
  | some n =>
    if n ∈ ([1, 2, 3, 4] : List ℤ) then some "ที่ดิน"
    else if n ∈ ([10, 11, 13, 37] : List ℤ) then some "สิ่งปลูกสร้าง"
    else if n ∈ ([18, 19, 20] : List ℤ) then some "ยานพาหนะ"
    else if n ∈ ([22, 24, 25, 28, 29, 30, 31, 32, 33, 39] : List ℤ) then
      some "ทรัพย์สินอื่น"
    else none

/-- `t.asset_type_main_type_name = name` on a joined type code: SQL equality
with a `NULL` type name is not satisfied. -/
def tnIs (t : Option ℤ) (name : String) : Bool :=
  match assetTypeMainName t with
  | some n => n == name
  | none => false

/-- `CASE WHEN t.asset_type_main_type_name = name THEN …` on an asset row. -/
def typeNameIs (r : AssetRow) (name : String) : Bool :=
  tnIs r.asset_type_id name

/-- `t.asset_type_main_type_name NOT IN (…)` on a joined type code:
three-valued `NOT IN` on a `NULL` name is `NULL`, hence not satisfied. -/
def tnOther (t : Option ℤ) : Bool :=
  match assetTypeMainName t with
  | some n => !(n ∈ ["ที่ดิน", "สิ่งปลูกสร้าง", "ยานพาหนะ"])
  | none => false

/-- `CASE WHEN t.asset_type_main_type_name NOT IN (…) THEN …` on an asset
row. -/
def typeNameIsOther (r : AssetRow) : Bool :=
  tnOther r.asset_type_id

/-- `SUM(CASE WHEN cond THEN a.valuation ELSE 0 END)` over one group of
asset rows (the `asset_val` CTE columns). -/
def sqlCaseSum (cond : AssetRow → Bool) (rows : List AssetRow) : Option ℚ :=
  sqlSum (rows.map (fun r => if cond r then insVal r.valuation else some 0))

/-- `statement_totals` column: `SUM(valuation_*)` over the statement rows
inserted by `_insert_statement`. -/
def sqlStatementTotal (proj : StatementRow → Val) (rows : List StatementRow) :
    Option ℚ :=
  sqlSum (rows.map (fun r => insVal (proj r)))

/-- `rel` CTE: `MAX(CASE WHEN is_death THEN 1 ELSE 0 END)` where
`_insert_relative_info` stores `1` exactly for the `'TRUE'` cell. -/
def sqlDeathFlag (rows : List RelativeRow) : Option ℕ :=
  sqlMaxFlag (rows.map (fun r => r.is_death == "TRUE"))

/-- `asset_val` owner columns: `CASE WHEN a.owner_by_submitter THEN …`
where `_insert_asset` stores `1` exactly for the `'TRUE'` cell. -/
def ownerCol (proj : AssetRow → String) (r : AssetRow) : Bool :=
  proj r == "TRUE"

/-! ### `TextFieldExtractor` (`_parse_land_info`, `_parse_building_info`,
`_parse_vehicle_info`).

The regular-expression searches of the source are modelled by match
oracles: each `re.search`/`re.match` result is an arbitrary value of the
appropriate `Option` type, so every theorem below quantifies over all
possible match outcomes and in particular covers the outcomes the actual
patterns produce.  Captures of the numeric shape `\d+(\.\d+)?` are
constrained, where needed, by the decidable predicate `isDecimalLit`,
which is exactly the set of strings that shape can capture. -/

/-- Split a character list on the dot separator (the shape test for the
area captures). -/
def splitDot : List Char → List (List Char)
  | [] => [[]]
  | c :: t =>
    if c = '.' then [] :: splitDot t
    else
      match splitDot t with
      | h :: r => (c :: h) :: r
      | [] => [[c]]

/-- One or more digits. -/
def isDigits (l : List Char) : Bool :=
  !l.isEmpty && l.all Char.isDigit

/-- A capture of the pattern `\d+(?:\.\d+)?`: one or more digits,
optionally followed by a dot and one or more digits. -/
def isDecimalLit (s : String) : Bool :=
  match splitDot s.toList with
  | [a] => isDigits a
  | [a, b] => isDigits a && isDigits b
  | _ => false

/-- Digits-only character list to a natural number (helper for `pyFloat`). -/
def digitsToNat (l : List Char) : ℕ :=
  l.foldl (fun n c => n * 10 + (c.toNat - '0'.toNat)) 0

/-- Python `float(s)` restricted to the decimal-literal captures that the
source feeds it; `none` models the `ValueError` branch. -/
def pyFloat (s : String) : Option ℚ :=
  match splitDot s.toList with
  | [a] => if isDigits a then some (digitsToNat a : ℚ) else none
  | [a, b] =>
    if isDigits a && isDigits b then
      some ((digitsToNat a : ℚ) + (digitsToNat b : ℚ) / ((10 : ℚ) ^ b.length))
    else none
  | _ => none

/-- Python `sub in s` (substring containment). -/
def pyContains (s sub : String) : Bool :=
  (s.splitOn sub).length ≠ 1 ∨ sub == ""

/-- One match of a province pattern: `group(0)` plus the optional first
capture group (`match.group(1) if match.lastindex else match.group(0)`). -/
structure ProvMatch where
  g0 : String
  g1 : Option String

/-- The match oracles consumed by `_parse_land_info`, in source order:
four land-number patterns, three area patterns, four province patterns. -/
structure LandOracles where
  landNumber : List (Option String) := [none, none, none, none]
  rai : Option String := none
  ngan : Option String := none
  sqwa : Option String := none
  province : List (Option ProvMatch) := [none, none, none, none]

/-- First successful pattern of an ordered chain (`for pattern in …:
if match: …; break`). -/
def firstSome {α : Type} (l : List (Option α)) : Option α :=
  match l with
  | [] => none
  | none :: t => firstSome t
  | some a :: _ => some a

/-- Of the four literal province patterns of `_parse_land_info`, only the
second (index 1, the capital-city literal) contains `กรุงเทพ`, so
`'กรุงเทพ' in pattern` holds exactly there. -/
def landProvincePatternHasBangkok (i : ℕ) : Bool :=
  i == 1

/-- The `for pattern in province_patterns` loop of `_parse_land_info`:
first matching pattern wins; a match of the capital-city pattern, or whose
whole match mentions the capital, normalizes to the full capital name,
otherwise `group(1)` when the pattern captured, else `group(0)`. -/
def provinceLoop (i : ℕ) : List (Option ProvMatch) → Option String
  | [] => none
  | none :: t => provinceLoop (i + 1) t
  | some m :: _ =>
    if landProvincePatternHasBangkok i || pyContains m.g0 "กรุงเทพ" then
      some "กรุงเทพมหานคร"
    else some (m.g1.getD m.g0)

/-- Truthiness of the `asset_name` argument (`if not asset_name: …`), which
may be Python `None`. -/
def optStrTruthy (o : Option String) : Bool :=
  match o with
  | some s => !(s == "")
  | none => false

/-- The `land_type_map` of `_parse_land_info` (`.get(asset_type_id, "")`). -/
def landTypeMap (t : Option ℤ) : String :=
  if t = some 1 then "โฉนด"
  else if t = some 2 then "น.ส.3 ก."
  else if t = some 3 then "น.ส.3"
  else if t = some 4 then "ส.ป.ก."
  else ""

/-- The base dict of `_parse_land_info` with all fields defaulted to `""`. -/
def landBase : Dict :=
  [("land_type", Val.vstr ""), ("land_number", Val.vstr ""),
   ("area_rai", Val.vstr ""), ("area_ngan", Val.vstr ""),
   ("area_sqwa", Val.vstr ""), ("province", Val.vstr "")]

/-- Set an area field from its match oracle: a successful match runs
`float(match.group(1))`, whose failure raises (`Except.error`). -/
def setArea (d : Dict) (k : String) (o : Option String) : Except String Dict :=
  match o with
  | none => Except.ok d
  | some s =>
    match pyFloat s with
    | some q => Except.ok (setKey d k (Val.vfloat q))
    | none => Except.error "ValueError: could not convert string to float"

/-- `JSONToCSVConverter._parse_land_info` over its match oracles. -/
def parseLandInfo (o : LandOracles) (asset_name : Option String)
    (asset_type_id : Option ℤ) : Except String Dict :=
  if !(optStrTruthy asset_name) then Except.ok landBase
  else
    let name := asset_name.getD ""
    let d := setKey landBase "land_type" (Val.vstr (landTypeMap asset_type_id))
    let d :=
      match firstSome o.landNumber with
      | some s => setKey d "land_number" (Val.vstr s)
      | none => d
    match setArea d "area_rai" o.rai with
    | Except.error e => Except.error e
    | Except.ok d =>
      match setArea d "area_ngan" o.ngan with
      | Except.error e => Except.error e
      | Except.ok d =>
        match setArea d "area_sqwa" o.sqwa with
        | Except.error e => Except.error e
        | Except.ok d =>
          let d :=
            match provinceLoop 0 o.province with
            | some p => setKey d "province" (Val.vstr p)
            | none => d
          let d :=
            if pyContains name "กรุงเทพ" && !(truthy (pyDictGet d "province")) then
              setKey d "province" (Val.vstr "กรุงเทพมหานคร")
            else d
          Except.ok d

/-- The match oracles consumed by `_parse_building_info`: five room-number
patterns and the `จังหวัด(\S+)` province pattern. -/
structure BuildingOracles where
  room : List (Option String) := [none, none, none, none, none]
  province : Option String := none

/-- The `building_type_map` of `_parse_building_info`. -/
def buildingTypeMap (t : Option ℤ) : String :=
  if t = some 10 then "บ้านเดี่ยว"
  else if t = some 11 then "อาคารพาณิชย์"
  else if t = some 13 then "ห้องชุด"
  else if t = some 37 then "ทาวน์เฮ้าส์"
  else ""

/-- The base dict of `_parse_building_info`. -/
def buildingBase : Dict :=
  [("building_type", Val.vstr ""), ("building_name", Val.vstr ""),
   ("room_number", Val.vstr ""), ("province", Val.vstr "")]

/-- `JSONToCSVConverter._parse_building_info` over its match oracles. -/
def parseBuildingInfo (o : BuildingOracles) (asset_name : Option String)
    (asset_type_id : Option ℤ) : Dict :=
  if !(optStrTruthy asset_name) then buildingBase
  else
    let name := asset_name.getD ""
    let d := setKey buildingBase "building_type"
      (Val.vstr (buildingTypeMap asset_type_id))
    let d := setKey d "building_name" (Val.vstr name)
    let d :=
      match firstSome o.room with
      | some s => setKey d "room_number" (Val.vstr s)
      | none => d
    if pyContains name "กรุงเทพ" then
      setKey d "province" (Val.vstr "กรุงเทพมหานคร")
    else
      match o.province with
      | some p => setKey d "province" (Val.vstr p)
      | none => d

/-- The match oracles consumed by `_parse_vehicle_info`: the brand-lexicon
search (matched brand plus the optional model capture following it), the
three vehicle-type-word fallback patterns, the four registration patterns
and the `จังหวัด(\S+)` province pattern. -/
structure VehicleOracles where
  brandSearch : Option (String × Option String) := none
  vehicleWord : List (Option String) := [none, none, none]
  registration : List (Option String) := [none, none, none, none]
  province : Option String := none

/-- The `vehicle_type_map` of `_parse_vehicle_info`. -/
def vehicleTypeMap (t : Option ℤ) : String :=
  if t = some 18 then "รถยนต์"
  else if t = some 19 then "รถจักรยานยนต์"
  else if t = some 20 then "เรือ"
  else ""

/-- The base dict of `_parse_vehicle_info`. -/
def vehicleBase : Dict :=
  [("vehicle_type", Val.vstr ""), ("brand", Val.vstr ""),
   ("model", Val.vstr ""), ("registration", Val.vstr ""),
   ("province", Val.vstr "")]

/-- `JSONToCSVConverter._parse_vehicle_info` over its match oracles. -/
def parseVehicleInfo (o : VehicleOracles) (asset_name : Option String)
    (asset_type_id : Option ℤ) : Dict :=
  if !(optStrTruthy asset_name) then vehicleBase
  else
    let name := asset_name.getD ""
    let d := setKey vehicleBase "vehicle_type"
      (Val.vstr (vehicleTypeMap asset_type_id))
    let d :=
      match o.brandSearch with
      | some (b, mo) =>
        let d := setKey d "brand" (Val.vstr b)
        match mo with
        | some m => setKey d "model" (Val.vstr m.trim)
        | none => d
      | none =>
        match firstSome o.vehicleWord with
        | some pb =>
          if !(pb == "") && !(pb.toList.headD ' ').isDigit then
            setKey d "brand" (Val.vstr pb)
          else d
        | none => d
    let d :=
      match firstSome o.registration with
      | some s => setKey d "registration" (Val.vstr s)
      | none => d
    match o.province with
    | some p => setKey d "province" (Val.vstr p)
    | none =>
      if pyContains name "กรุงเทพ" then
        setKey d "province" (Val.vstr "กรุงเทพมหานคร")
      else d

/-! ### `LLMParser._extract_json_from_response`.

`json.loads` is an external library function, modelled as an arbitrary
parse function `loads`; the fenced-code-block and brace-span regex
extractions are match oracles, as for the text-field extractors. -/

/-- `LLMParser._extract_json_from_response`: direct parse, then the fenced
code block, then the brace-delimited span, raising after all three fail. -/
def extractJsonFromResponse (loads : String → Option Val)
    (fence brace : Option String) (response_text : String) :
    Except String Val :=
  match loads response_text with
  | some v => Except.ok v
  | none =>
    let tryBrace : Except String Val :=
      match brace with
      | some s =>
        match loads s with
        | some v => Except.ok v
        | none => Except.error "Could not extract valid JSON from response"
      | none => Except.error "Could not extract valid JSON from response"
    match fence with
    | some s =>
      match loads s with
      | some v => Except.ok v
      | none => tryBrace
    | none => tryBrace

/-! ### `JSONToCSVConverter._write_csv` cell rendering -/

/-- The per-value conversion of the `_write_csv` loop: whole floats become
ints, empty strings and `None` become the `'NONE'` sentinel. -/
def convertCell (v : Val) : Val :=
  match v with
  | Val.vfloat q => if q.den == 1 then Val.vint q.num else Val.vfloat q
  | Val.vnull => Val.vstr "NONE"
  | Val.vstr s => if s == "" then Val.vstr "NONE" else Val.vstr s
  | v => v

/-- Decimal rendering of a natural number, structurally recursive on a
fuel argument so that concrete renderings reduce by `rfl`. -/
def natReprAux : ℕ → ℕ → String
  | 0, _ => ""
  | f + 1, n =>
    if n < 10 then String.mk [Nat.digitChar n]
    else natReprAux f (n / 10) ++ String.mk [Nat.digitChar (n % 10)]

/-- Decimal rendering of a natural number (`str(n)`); `n + 1` fuel always
suffices. -/
def natRepr (n : ℕ) : String :=
  natReprAux (n + 1) n

/-- Decimal rendering of an integer (`str(n)`). -/
def intRepr (n : ℤ) : String :=
  if n < 0 then "-" ++ natRepr n.natAbs else natRepr n.natAbs

/-- The string the csv module writes for a cell value (`str(value)`).
Non-whole floats, lists and dicts render through Python's `repr`; its
exact spelling is irrelevant to the claims, so a fixed non-empty stand-in
is used (no such cell occurs in the converter's rows). -/
def strOfVal (v : Val) : String :=
  match v with
  | Val.vnull => "None"
  | Val.vstr s => s
  | Val.vint n => intRepr n
  | Val.vfloat q => intRepr q.num ++ "." ++ natRepr q.den
  | Val.vbool b => if b then "True" else "False"
  | Val.vlist _ => "[list]"
  | Val.vdict _ => "[dict]"

/-- The `filtered_row` built by `_write_csv`: keys outside `fieldnames` are
dropped, remaining values converted. -/
def filterRow (fieldnames : List String) (row : Dict) : Dict :=
  row.foldl
    (fun acc kv =>
      if kv.1 ∈ fieldnames then setKey acc kv.1 (convertCell kv.2) else acc) []

/-- The record `csv.DictWriter.writerow` emits for one row: one cell per
declared fieldname, with the writer's `restval` default `''` for a missing
key. -/
def writeCsvRow (fieldnames : List String) (row : Dict) : List String :=
  fieldnames.map
    (fun fn =>
      match lookupD (filterRow fieldnames row) fn with
      | some v => strOfVal v
      | none => "")

/-! ## Theorems -/

/-- The successful-page counter of the merge fold counts the fragments
without an error marker. -/
theorem foldl_mergePage_snd (pages : List Fragment) (acc : MergedDoc × ℕ) :
    (pages.foldl mergePage acc).2 = acc.2 + pages.countP (fun p => !hasError p) := by
  induction pages generalizing acc with
  | nil => simp
  | cons p t ih =>
    simp only [List.foldl_cons, List.countP_cons]
    rw [ih]
    by_cases h : hasError p = true
    · simp [mergePage, h]
    · simp [mergePage, h]
      omega

/-- The merge fold never touches `extraction_status`. -/
theorem foldl_mergePage_status (pages : List Fragment) (acc : MergedDoc × ℕ) :
    (pages.foldl mergePage acc).1.extraction_status = acc.1.extraction_status := by
  induction pages generalizing acc with
  | nil => rfl
  | cons p t ih =>
    simp only [List.foldl_cons]
    rw [ih]
    by_cases h : hasError p = true
    · simp [mergePage, h]
    · simp [mergePage, h]

/-- C4.  For every list of page fragments merged by
`LLMParser.merge_parsed_pages`, `confidence_score` equals the number of
fragments without an error marker divided by the total number of
fragments; `extraction_status` is `"failed"` exactly when that fraction is
`0` (in particular for the empty fragment list, whose confidence is `0`),
`"success"` exactly when it is `1`, and `"partial"` otherwise. -/
theorem merge_confidence_and_status (pages : List Fragment) (d : String)
    (n : ℤ) :
    (mergeParsedPages pages d n).confidence_score
        = (pages.countP (fun p => !hasError p) : ℚ) / (pages.length : ℚ)
      ∧ ((mergeParsedPages pages d n).extraction_status = "failed"
          ↔ (mergeParsedPages pages d n).confidence_score = 0)
      ∧ ((mergeParsedPages pages d n).extraction_status = "success"
          ↔ (mergeParsedPages pages d n).confidence_score = 1)
      ∧ ((mergeParsedPages pages d n).extraction_status = "partial"
          ↔ ((mergeParsedPages pages d n).confidence_score ≠ 0
              ∧ (mergeParsedPages pages d n).confidence_score ≠ 1)) := by
  have hst : pages.countP (fun p => !hasError p) ≤ pages.length :=
    List.countP_le_length _
  simp only [mergeParsedPages]
  rw [foldl_mergePage_snd, foldl_mergePage_status]
  simp only [Nat.zero_add]
  set s := pages.countP (fun p => !hasError p) with hs
  set t := pages.length with ht
  by_cases h0 : s = 0
  · by_cases ht0 : t = 0
    · simp [h0, ht0, String.reduceEq]
    · have htpos : 0 < t := Nat.pos_of_ne_zero ht0
      simp [h0, htpos, String.reduceEq]
  · have htpos : 0 < t := lt_of_lt_of_le (Nat.pos_of_ne_zero h0) hst
    have htq : (t : ℚ) ≠ 0 := by
      exact_mod_cast Nat.pos_iff_ne_zero.mp htpos
    have hconf0 : ((s : ℚ) / (t : ℚ) = 0) ↔ False := by
      rw [div_eq_zero_iff]
      simp [htq, h0]
    have hconf1 : ((s : ℚ) / (t : ℚ) = 1) ↔ s = t := by
      rw [div_eq_one_iff_eq htq]
      exact_mod_cast Iff.rfl
    by_cases hlt : s < t
    · have hne : s ≠ t := Nat.ne_of_lt hlt
      simp [h0, hlt, htpos, hconf0, hconf1, hne, String.reduceEq]
    · have heq : s = t := Nat.le_antisymm hst (Nat.le_of_not_lt hlt)
      have ht0 : t ≠ 0 := Nat.pos_iff_ne_zero.mp htpos
      simp [h0, hlt, htpos, ht0, heq, div_self htq, String.reduceEq]

/-- C5.  Every asset processed by `JSONToCSVConverter._process_assets`
emits exactly one row into exactly one of the four conditional sub-tables
(land, building, vehicle, other), for every possible `asset_type_id`
value. -/
theorem asset_subtable_partition (ps : Parsers) (sid : ℕ) (nid : Val)
    (today : String) (aid : ℕ) (a : AssetP) :
    ((if (processAsset ps sid nid today aid a).2.1.isSome then 1 else 0)
      + (if (processAsset ps sid nid today aid a).2.2.1.isSome then 1 else 0)
      + (if (processAsset ps sid nid today aid a).2.2.2.1.isSome then 1 else 0)
      + (if (processAsset ps sid nid today aid a).2.2.2.2.isSome then 1 else 0))
      = 1 := by
  rcases hid : pyGetD a.asset_type_id 39 with _ | t
  · simp [processAsset, optMem, hid]
  · simp only [processAsset, optMem, hid, decide_eq_true_eq, List.mem_cons,
      List.mem_singleton, List.not_mem_nil, or_false]
    split_ifs <;> simp_all <;> omega

/-- C9.  JSON recovery attempts the three strategies in order — direct
parse, fenced-code-block parse, brace-span parse — returns the first that
succeeds, and raises the terminal parse error exactly when all three fail;
in particular any text that parses directly is returned by the direct
parse. -/
theorem json_recovery_cascade (loads : String → Option Val)
    (fence brace : Option String) (text : String) :
    (∀ v, loads text = some v →
        extractJsonFromResponse loads fence brace text = Except.ok v)
      ∧ (∀ s v, loads text = none → fence = some s → loads s = some v →
          extractJsonFromResponse loads fence brace text = Except.ok v)
      ∧ (∀ s v, loads text = none → fence.bind loads = none → brace = some s →
          loads s = some v →
          extractJsonFromResponse loads fence brace text = Except.ok v)
      ∧ (extractJsonFromResponse loads fence brace text
            = Except.error "Could not extract valid JSON from response"
          ↔ (loads text = none ∧ fence.bind loads = none ∧
              brace.bind loads = none)) := by
  refine ⟨?_, ?_, ?_, ?_⟩
  · intro v h
    simp [extractJsonFromResponse, h]
  · intro s v h0 hf hs
    simp [extractJsonFromResponse, h0, hf, hs]
  · intro s v h0 hbf hb hs
    rcases hfe : fence with _ | fs
    · simp [extractJsonFromResponse, h0, hfe, hb, hs]
    · have hlf : loads fs = none := by
        rw [hfe] at hbf
        simpa using hbf
      simp [extractJsonFromResponse, h0, hfe, hlf, hb, hs]
  · rcases hl : loads text with _ | v
    · rcases hfe : fence with _ | fs
      · rcases hbe : brace with _ | bs
        · simp [extractJsonFromResponse, hl, hfe, hbe]
        · rcases hlb : loads bs with _ | w <;>
            simp [extractJsonFromResponse, hl, hfe, hbe, hlb]
      · rcases hlf : loads fs with _ | w
        · rcases hbe : brace with _ | bs
          · simp [extractJsonFromResponse, hl, hfe, hlf, hbe]
          · rcases hlb : loads bs with _ | w <;>
              simp [extractJsonFromResponse, hl, hfe, hlf, hbe, hlb]
        · simp [extractJsonFromResponse, hl, hfe, hlf]
    · simp [extractJsonFromResponse, hl]

/-- Concrete parse function for exercising the recovery cascade. -/
def exLoads : String → Option Val :=
  fun s => if s = "GOOD" then some (Val.vint 7) else none

/-- Witness for C9: a direct-parse failure recovered through the fenced
block. -/
theorem json_recovery_cascade_witness :
    extractJsonFromResponse exLoads (some "GOOD") none "bad"
      = Except.ok (Val.vint 7) :=
  (json_recovery_cascade exLoads (some "GOOD") none "bad").2.1 "GOOD"
    (Val.vint 7) rfl rfl rfl

/-! ### Dict lookup lemmas shared by the CSV-боundary and merge proofs -/

/-- Looking up the key just set. -/
theorem lookupD_setKey_self (d : Dict) (k : String) (v : Val) :
    lookupD (setKey d k v) k = some v := by
  induction d with
  | nil => simp [setKey, lookupD]
  | cons kv t ih =>
    by_cases h : kv.1 = k
    · simp [setKey, lookupD, h]
    · simp [setKey, lookupD, h, ih]

/-- Setting one key does not affect another. -/
theorem lookupD_setKey_ne (d : Dict) (k k' : String) (v : Val) (h : k' ≠ k) :
    lookupD (setKey d k' v) k = lookupD d k := by
  induction d with
  | nil => simp [setKey, lookupD, h]
  | cons kv t ih =>
    simp only [setKey]
    by_cases hk : kv.1 = k'
    · simp [lookupD, h, hk]
    · simp only [hk, if_false, lookupD]
      by_cases hk2 : kv.1 = k
      · simp [hk2]
      · simp [hk2, ih]

/-- A key absent from a dict looks up to `none`. -/
theorem lookupD_eq_none_of_not_mem (d : Dict) (k : String)
    (h : k ∉ d.map Prod.fst) : lookupD d k = none := by
  induction d with
  | nil => rfl
  | cons kv t ih =>
    simp only [List.map_cons, List.mem_cons, not_or] at h
    simp only [lookupD]
    rw [if_neg fun hh => h.1 hh.symm]
    exact ih h.2

/-- Lookup through the `filtered_row` fold of `_write_csv`: with unique row
keys, the cell for a declared column is the converted row value and an
undeclared column is absent. -/
theorem lookupD_filterRow_fold (fieldnames : List String) (row : Dict)
    (acc : Dict) (k : String) (hnd : (row.map Prod.fst).Nodup) :
    lookupD
        (row.foldl
          (fun acc kv =>
            if kv.1 ∈ fieldnames then setKey acc kv.1 (convertCell kv.2)
            else acc) acc) k
      = match lookupD row k with
        | some v => if k ∈ fieldnames then some (convertCell v) else lookupD acc k
        | none => lookupD acc k := by
  induction row generalizing acc with
  | nil => simp [lookupD]
  | cons kv t ih =>
    simp only [List.map_cons, List.nodup_cons] at hnd
    simp only [List.foldl_cons]
    rw [ih _ hnd.2]
    by_cases hk : kv.1 = k
    · subst hk
      have ht : lookupD t kv.1 = none :=
        lookupD_eq_none_of_not_mem t kv.1 hnd.1
      rw [ht]
      simp only [lookupD, if_pos rfl]
      by_cases hf : kv.1 ∈ fieldnames
      · simp [hf, lookupD_setKey_self]
      · simp [hf]
    · simp only [lookupD, hk, if_false]
      rcases lookupD t k with _ | v
      · by_cases hf : kv.1 ∈ fieldnames
        · simp only [hf, if_true]
          exact lookupD_setKey_ne acc k kv.1 _ hk
        · simp [hf]
      · by_cases hf2 : k ∈ fieldnames
        · simp [hf2]
        · simp only [hf2, if_false]
          by_cases hf : kv.1 ∈ fieldnames
          · simp only [hf, if_true]
            exact lookupD_setKey_ne acc k kv.1 _ hk
          · simp [hf]

/-- `natRepr` never renders the empty string. -/
theorem natRepr_ne_empty (n : ℕ) : natRepr n ≠ "" := by
  intro h
  have hlen := congrArg String.length h
  rw [natRepr, natReprAux] at hlen
  by_cases h10 : n < 10
  · simp [h10] at hlen
  · rw [if_neg h10, String.length_append] at hlen
    simp at hlen

/-- `intRepr` never renders the empty string. -/
theorem intRepr_ne_empty (n : ℤ) : intRepr n ≠ "" := by
  unfold intRepr
  by_cases h : n < 0
  · simp only [h, if_true]
    intro hc
    have hlen := congrArg String.length hc
    rw [String.length_append] at hlen
    have h1 : (0 : ℕ) < ("-" : String).length := by decide
    have h2 : ("" : String).length = 0 := rfl
    omega
  · simp only [h, if_false]
    exact natRepr_ne_empty n.natAbs

/-- After the `_write_csv` conversion, every rendered cell value is a
non-empty string. -/
theorem strOfVal_convertCell_ne_empty (v : Val) :
    strOfVal (convertCell v) ≠ "" := by
  rcases v with _ | s | n | q | b | l | d
  · simp [convertCell, strOfVal]
  · by_cases h : s = "" <;> simp [convertCell, strOfVal, h]
  · simp [convertCell, strOfVal, intRepr_ne_empty]
  · by_cases h : (q.den == 1) = true
    · simp [convertCell, strOfVal, h, intRepr_ne_empty]
    · have hcc : convertCell (Val.vfloat q) = Val.vfloat q := by
        simp [convertCell, h]
      rw [hcc]
      intro hc
      have hlen := congrArg String.length hc
      simp only [strOfVal] at hlen
      rw [String.length_append, String.length_append] at hlen
      have h1 : ("." : String).length = 1 := rfl
      have h2 : ("" : String).length = 0 := rfl
      omega
  · rcases b <;> simp [convertCell, strOfVal]
  · simp [convertCell, strOfVal]
  · simp [convertCell, strOfVal]

/-- C10 (amended).  At the CSV export boundary, provided the row has
unique keys and a value for every declared column: the written record has
one cell per declared column, rendering `None` and the empty string as the
`'NONE'` sentinel and whole-number floats as integers; keys outside the
declared column list are dropped; and no written cell is empty.  (Without
the coverage hypothesis a row missing a declared column exports an empty
cell — see the counterexample.) -/
theorem write_csv_rendering (fieldnames : List String) (row : Dict)
    (hnd : (row.map Prod.fst).Nodup)
    (hcov : ∀ fn ∈ fieldnames, (lookupD row fn).isSome) :
    writeCsvRow fieldnames row
        = fieldnames.map
            (fun fn => strOfVal (convertCell ((lookupD row fn).getD Val.vnull)))
      ∧ (∀ c ∈ writeCsvRow fieldnames row, c ≠ "")
      ∧ (∀ k, k ∉ fieldnames → lookupD (filterRow fieldnames row) k = none)
      ∧ convertCell Val.vnull = Val.vstr "NONE"
      ∧ (∀ s, convertCell (Val.vstr s)
            = if s = "" then Val.vstr "NONE" else Val.vstr s)
      ∧ (∀ q : ℚ, q.den = 1 → convertCell (Val.vfloat q) = Val.vint q.num) := by
  have hcell : ∀ fn ∈ fieldnames,
      (match lookupD (filterRow fieldnames row) fn with
       | some v => strOfVal v
       | none => "")
        = strOfVal (convertCell ((lookupD row fn).getD Val.vnull)) := by
    intro fn hfn
    have := lookupD_filterRow_fold fieldnames row [] fn hnd
    rw [filterRow] at *
    rw [this]
    rcases h : lookupD row fn with _ | v
    · have := hcov fn hfn
      rw [h] at this
      simp at this
    · simp [hfn]
  refine ⟨?_, ?_, ?_, rfl, ?_, ?_⟩
  case refine_4 =>
    intro s
    by_cases h : s = "" <;> simp [convertCell, h]
  · rw [writeCsvRow]
    exact List.map_congr_left hcell
  · intro c hc
    rw [writeCsvRow] at hc
    rcases List.mem_map.mp hc with ⟨fn, hfn, hceq⟩
    rw [hcell fn hfn] at hceq
    rw [← hceq]
    exact strOfVal_convertCell_ne_empty _
  · intro k hk
    have := lookupD_filterRow_fold fieldnames row [] k hnd
    rw [filterRow]
    rw [this]
    rcases lookupD row k with _ | v
    · rfl
    · simp [hk, lookupD]
  · intro q hq
    simp [convertCell, hq]

/-- Witness for C10: a row with a `None` cell and a whole-float cell
renders as the sentinel and the bare integer. -/
theorem write_csv_rendering_witness :
    writeCsvRow ["a", "b"] [("a", Val.vnull), ("b", Val.vfloat 2)]
        = ["NONE", "2"]
      ∧ ∀ c ∈ writeCsvRow ["a", "b"] [("a", Val.vnull), ("b", Val.vfloat 2)],
          c ≠ "" :=
  ⟨by rfl,
   (write_csv_rendering ["a", "b"] [("a", Val.vnull), ("b", Val.vfloat 2)]
     (by decide) (by decide)).2.1⟩

/-- Counterexample for C10 as stated: a row that lacks a declared column
(here the only cell) exports an empty cell, so the claim "no exported cell
is ever empty" fails; the undeclared key is dropped and contributes
nothing. -/
theorem write_csv_empty_cell_counterexample :
    writeCsvRow ["nacc_id"] [("foo", Val.vint 1)] = [""]
      ∧ ("" : String) ∈ writeCsvRow ["nacc_id"] [("foo", Val.vint 1)] := by
  constructor
  · rfl
  · rw [writeCsvRow]
    simp [filterRow, lookupD]

/-! ### C8: the extractor profiles always return fully-populated records -/

/-- A key is present with a non-null value. -/
def nonNullAt (d : Dict) (k : String) : Bool :=
  match lookupD d k with
  | some Val.vnull => false
  | some _ => true
  | none => false

/-- Every key of the schema is present with a non-null value. -/
def fullyPopulated (d : Dict) (keys : List String) : Prop :=
  ∀ k ∈ keys, nonNullAt d k = true

instance fullyPopulatedDec (d : Dict) (keys : List String) :
    Decidable (fullyPopulated d keys) :=
  List.decidableBAll _ keys

/-- The schema keys of the land profile. -/
def landKeys : List String :=
  ["land_type", "land_number", "area_rai", "area_ngan", "area_sqwa", "province"]

/-- The schema keys of the building profile. -/
def buildingKeys : List String :=
  ["building_type", "building_name", "room_number", "province"]

/-- The schema keys of the vehicle profile. -/
def vehicleKeys : List String :=
  ["vehicle_type", "brand", "model", "registration", "province"]

/-- Setting any key to a non-null value preserves full population. -/
theorem fullyPopulated_setKey (d : Dict) (keys : List String) (k : String)
    (v : Val) (hd : fullyPopulated d keys) (hv : v ≠ Val.vnull) :
    fullyPopulated (setKey d k v) keys := by
  intro k' hk'
  by_cases h : k' = k
  · subst h
    rw [nonNullAt, lookupD_setKey_self]
    rcases v with _ | _ | _ | _ | _ | _ | _ <;> first | exact absurd rfl hv | rfl
  · rw [nonNullAt, lookupD_setKey_ne d k' k v (fun hh => h hh.symm)]
    exact hd k' hk'

/-- `float()` succeeds on every capture of the `\d+(?:\.\d+)?` shape. -/
theorem pyFloat_isSome_of_isDecimalLit (s : String)
    (h : isDecimalLit s = true) : (pyFloat s).isSome = true := by
  rw [isDecimalLit] at h
  rw [pyFloat]
  rcases hs : splitDot s.toList with _ | ⟨a, _ | ⟨b, _ | _⟩⟩ <;>
    rw [hs] at h <;> simp_all

/-- A present area match converts and is stored; full population is
preserved either way. -/
theorem setArea_preserves (d : Dict) (k : String) (o : Option String)
    (keys : List String) (ho : ∀ s, o = some s → isDecimalLit s = true)
    (hd : fullyPopulated d keys) :
    ∃ d', setArea d k o = Except.ok d' ∧ fullyPopulated d' keys := by
  rcases o with _ | s
  · exact ⟨d, rfl, hd⟩
  · have hsome := pyFloat_isSome_of_isDecimalLit s (ho s rfl)
    rcases hq : pyFloat s with _ | q
    · rw [hq] at hsome
      simp at hsome
    · refine ⟨setKey d k (Val.vfloat q), ?_, ?_⟩
      · simp [setArea, hq]
      · exact fullyPopulated_setKey d keys k (Val.vfloat q) hd (by simp)

/-- C8.  Each `TextFieldExtractor` profile returns a record in which every
schema field is present with a non-null value (empty-string default when
nothing matched) and never raises, for every input string or `None`, every
type code and every possible match outcome; the land profile's `float()`
conversions succeed because the area patterns only capture decimal
literals. -/
theorem extractor_profiles_total (lo : LandOracles) (bo : BuildingOracles)
    (vo : VehicleOracles) (name : Option String) (tid : Option ℤ)
    (hrai : ∀ s, lo.rai = some s → isDecimalLit s = true)
    (hngan : ∀ s, lo.ngan = some s → isDecimalLit s = true)
    (hsqwa : ∀ s, lo.sqwa = some s → isDecimalLit s = true) :
    (∃ d, parseLandInfo lo name tid = Except.ok d ∧ fullyPopulated d landKeys)
      ∧ fullyPopulated (parseBuildingInfo bo name tid) buildingKeys
      ∧ fullyPopulated (parseVehicleInfo vo name tid) vehicleKeys := by
  have hbase : fullyPopulated landBase landKeys := by decide
  have hbbase : fullyPopulated buildingBase buildingKeys := by decide
  have hvbase : fullyPopulated vehicleBase vehicleKeys := by decide
  refine ⟨?_, ?_, ?_⟩
  · rw [parseLandInfo]
    by_cases hname : optStrTruthy name = true
    case neg =>
      simp only [hname, Bool.not_false]
      exact ⟨landBase, rfl, hbase⟩
    case pos =>
      simp only [hname, Bool.not_true, Bool.false_eq_true, if_false]
      have h1 : fullyPopulated
          (setKey landBase "land_type" (Val.vstr (landTypeMap tid))) landKeys :=
        fullyPopulated_setKey _ _ _ _ hbase (by simp)
      have h2 : ∀ d0, fullyPopulated d0 landKeys → fullyPopulated
          (match firstSome lo.landNumber with
           | some s => setKey d0 "land_number" (Val.vstr s)
           | none => d0) landKeys := by
        intro d0 hd0
        rcases firstSome lo.landNumber with _ | s
        · exact hd0
        · exact fullyPopulated_setKey _ _ _ _ hd0 (by simp)
      obtain ⟨d3, e3, p3⟩ := setArea_preserves _ "area_rai" lo.rai landKeys hrai
        (h2 _ h1)
      rw [e3]
      dsimp only
      obtain ⟨d4, e4, p4⟩ := setArea_preserves d3 "area_ngan" lo.ngan landKeys
        hngan p3
      rw [e4]
      dsimp only
      obtain ⟨d5, e5, p5⟩ := setArea_preserves d4 "area_sqwa" lo.sqwa landKeys
        hsqwa p4
      rw [e5]
      dsimp only
      have h6 : ∀ d0, fullyPopulated d0 landKeys → fullyPopulated
          (match provinceLoop 0 lo.province with
           | some p => setKey d0 "province" (Val.vstr p)
           | none => d0) landKeys := by
        intro d0 hd0
        rcases provinceLoop 0 lo.province with _ | p
        · exact hd0
        · exact fullyPopulated_setKey _ _ _ _ hd0 (by simp)
      refine ⟨_, rfl, ?_⟩
      by_cases h7 : (pyContains (name.getD "") "กรุงเทพ"
          && !truthy (pyDictGet (match provinceLoop 0 lo.province with
            | some p => setKey d5 "province" (Val.vstr p)
            | none => d5) "province")) = true
      · rw [if_pos h7]
        exact fullyPopulated_setKey _ _ _ _ (h6 d5 p5) (by simp)
      · rw [if_neg h7]
        exact h6 d5 p5
  · rw [parseBuildingInfo]
    by_cases hname : optStrTruthy name = true
    case neg =>
      simp only [hname, Bool.not_false]
      exact hbbase
    case pos =>
      simp only [hname, Bool.not_true, Bool.false_eq_true, if_false]
      have h1 : fullyPopulated (setKey (setKey buildingBase "building_type"
          (Val.vstr (buildingTypeMap tid))) "building_name"
          (Val.vstr (name.getD ""))) buildingKeys :=
        fullyPopulated_setKey _ _ _ _
          (fullyPopulated_setKey _ _ _ _ hbbase (by simp)) (by simp)
      have h2 : fullyPopulated
          (match firstSome bo.room with
           | some s => setKey (setKey (setKey buildingBase "building_type"
               (Val.vstr (buildingTypeMap tid))) "building_name"
               (Val.vstr (name.getD ""))) "room_number" (Val.vstr s)
           | none => setKey (setKey buildingBase "building_type"
               (Val.vstr (buildingTypeMap tid))) "building_name"
               (Val.vstr (name.getD ""))) buildingKeys := by
        rcases firstSome bo.room with _ | s
        · exact h1
        · exact fullyPopulated_setKey _ _ _ _ h1 (by simp)
      by_cases h3 : pyContains (name.getD "") "กรุงเทพ" = true
      · rw [if_pos h3]
        exact fullyPopulated_setKey _ _ _ _ h2 (by simp)
      · rw [if_neg h3]
        rcases bo.province with _ | p
        · exact h2
        · exact fullyPopulated_setKey _ _ _ _ h2 (by simp)
  · rw [parseVehicleInfo]
    by_cases hname : optStrTruthy name = true
    case neg =>
      simp only [hname, Bool.not_false]
      exact hvbase
    case pos =>
      simp only [hname, Bool.not_true, Bool.false_eq_true, if_false]
      have h1 : fullyPopulated (setKey vehicleBase "vehicle_type"
          (Val.vstr (vehicleTypeMap tid))) vehicleKeys :=
        fullyPopulated_setKey _ _ _ _ hvbase (by simp)
      have h2 : ∀ d0, fullyPopulated d0 vehicleKeys → fullyPopulated
          (match vo.brandSearch with
           | some (b, mo) =>
             match mo with
             | some m => setKey (setKey d0 "brand" (Val.vstr b)) "model"
                 (Val.vstr m.trim)
             | none => setKey d0 "brand" (Val.vstr b)
           | none =>
             match firstSome vo.vehicleWord with
             | some pb =>
               if !(pb == "") && !(pb.toList.headD ' ').isDigit then
                 setKey d0 "brand" (Val.vstr pb)
               else d0
             | none => d0) vehicleKeys := by
        intro d0 hd0
        rcases vo.brandSearch with _ | ⟨b, mo⟩
        · dsimp only
          rcases firstSome vo.vehicleWord with _ | pb
          · exact hd0
          · dsimp only
            by_cases hpb : (!(pb == "") && !(pb.toList.headD ' ').isDigit) = true
            · rw [if_pos hpb]
              exact fullyPopulated_setKey _ _ _ _ hd0 (by simp)
            · rw [if_neg hpb]
              exact hd0
        · dsimp only
          rcases mo with _ | m
          · exact fullyPopulated_setKey _ _ _ _ hd0 (by simp)
          · exact fullyPopulated_setKey _ _ _ _
              (fullyPopulated_setKey _ _ _ _ hd0 (by simp)) (by simp)
      have h3 : ∀ d0, fullyPopulated d0 vehicleKeys → fullyPopulated
          (match firstSome vo.registration with
           | some s => setKey d0 "registration" (Val.vstr s)
           | none => d0) vehicleKeys := by
        intro d0 hd0
        rcases firstSome vo.registration with _ | s
        · exact hd0
        · exact fullyPopulated_setKey _ _ _ _ hd0 (by simp)
      rcases vo.province with _ | p
      · by_cases h4 : pyContains (name.getD "") "กรุงเทพ" = true
        · rw [if_pos h4]
          exact fullyPopulated_setKey _ _ _ _ (h3 _ (h2 _ h1)) (by simp)
        · rw [if_neg h4]
          exact h3 _ (h2 _ h1)
      · exact fullyPopulated_setKey _ _ _ _ (h3 _ (h2 _ h1)) (by simp)

/-- Concrete oracles exercising the land profile. -/
def exLandOracles : LandOracles :=
  { landNumber := [some "114172", none, none, none],
    rai := some "12.5", ngan := none, sqwa := some "50",
    province := [none, some ⟨"กรุงเทพมหานคร", none⟩, none, none] }

/-- Witness for C8: the three profiles at concrete inputs. -/
theorem extractor_profiles_total_witness :
    (∃ d, parseLandInfo exLandOracles (some "โฉนดที่ดิน") (some 1)
        = Except.ok d ∧ fullyPopulated d landKeys)
      ∧ fullyPopulated
          (parseBuildingInfo {} (some "โฉนดที่ดิน") (some 1)) buildingKeys
      ∧ fullyPopulated
          (parseVehicleInfo {} (some "โฉนดที่ดิน") (some 1)) vehicleKeys :=
  extractor_profiles_total exLandOracles {} {} (some "โฉนดที่ดิน") (some 1)
    (by intro s hs; cases hs; decide)
    (by intro s hs; cases hs)
    (by intro s hs; cases hs; decide)

/-! ### C2: the summary's registry fallback chain -/

/-- A detail-registry row whose `title` cell is empty. -/
def exNaccDetail : NaccDetail :=
  { title := "", first_name := "สมชาย", last_name := "ใจดี",
    position := "ส.ส.", submitter_id := "S1" }

/-- A submitter-registry row carrying the title the detail registry lacks. -/
def exSubmitterInput : SubmitterInput :=
  { title := "นาย", first_name := "สมชาย", last_name := "ใจดี" }

/-- Detail registry with the single row above under key `"123"`. -/
def exNdReg : String → Option NaccDetail :=
  fun k => if k = "123" then some exNaccDetail else none

/-- Submitter registry with the single row above under key `"S1"`. -/
def exSiReg : String → Option SubmitterInput :=
  fun k => if k = "S1" then some exSubmitterInput else none

/-- C2.  At the failing input — detail-registry `title` empty, submitter
registry `title` `"นาย"` — the generated summary's `nd_title` is the
sentinel `"NONE"`, not the submitter registry's value: because the local
`get_value` already substitutes the (truthy) sentinel for an empty
primary-registry cell, the `or get_value(submitter_input…)` fallback
written in the source (and announced by its own comment "fallback to
submitter_info") can never be reached. -/
theorem summary_title_fallback_dead :
    lookupD
        (generateSummary exNdReg exSiReg {} 1 (Val.vint 123) "123"
          (Val.vstr "D1") 1) "nd_title"
        = some (Val.vstr "NONE")
      ∧ (exSiReg "S1").map SubmitterInput.title = some "นาย"
      ∧ ("NONE" : String) ≠ "นาย" := by
  refine ⟨by rfl, by rfl, by decide⟩

/-! ### C3: registry identifiers replace embedded ones in every row -/

/-- Every statement row from `_process_statements` carries the `nacc_id`
it was called with. -/
theorem processStatements_nacc_id (sid : ℕ) (nid : Val) (today : String)
    (l : List Stmt) : ∀ r ∈ processStatements sid nid today l,
    r.nacc_id = nid := by
  intro r hr
  rcases List.mem_map.mp hr with ⟨s, _, rfl⟩
  rfl

/-- Every statement-detail row carries the `nacc_id` it was called with. -/
theorem processStatementDetails_nacc_id (sid : ℕ) (nid : Val) (today : String)
    (l : List StmtDetail) : ∀ r ∈ processStatementDetails sid nid today l,
    r.nacc_id = nid := by
  intro r hr
  rcases List.mem_map.mp hr with ⟨s, _, rfl⟩
  rfl

/-- Every relative row carries the `nacc_id` it was called with. -/
theorem processRelatives_nacc_id (sid : ℕ) (nid : Val) (today : String)
    (rid : ℕ) (l : List RelativeP) :
    ∀ r ∈ (processRelatives sid nid today rid l).1, r.nacc_id = nid := by
  induction l generalizing rid with
  | nil => intro r hr; cases hr
  | cons x t ih =>
    intro r hr
    rw [processRelatives] at hr
    rcases List.mem_cons.mp hr with rfl | hr
    · rfl
    · exact ih (rid + 1) r hr

/-- Each sub-table row emitted for one asset carries the `nacc_id` that
`_process_assets` was called with. -/
theorem processAsset_nacc_id (ps : Parsers) (sid : ℕ) (nid : Val)
    (today : String) (aid : ℕ) (a : AssetP) :
    (processAsset ps sid nid today aid a).1.nacc_id = nid
      ∧ (∀ row, (processAsset ps sid nid today aid a).2.1 = some row →
          row.nacc_id = nid)
      ∧ (∀ row, (processAsset ps sid nid today aid a).2.2.1 = some row →
          row.nacc_id = nid)
      ∧ (∀ row, (processAsset ps sid nid today aid a).2.2.2.1 = some row →
          row.nacc_id = nid)
      ∧ (∀ row, (processAsset ps sid nid today aid a).2.2.2.2 = some row →
          row.nacc_id = nid) := by
  rw [processAsset]
  dsimp only
  refine ⟨rfl, ?_, ?_, ?_, ?_⟩ <;> intro row h <;> split at h <;>
    first
      | exact Option.noConfusion h
      | (cases Option.some.inj h; rfl)

/-- Every asset row and every sub-table row carries the `nacc_id` that
`_process_assets` was called with. -/
theorem processAssets_nacc_id (ps : Parsers) (sid : ℕ) (nid : Val)
    (today : String) (aid : ℕ) (l : List AssetP) :
    (∀ r ∈ (processAssets ps sid nid today aid l).1, r.nacc_id = nid)
      ∧ (∀ r ∈ (processAssets ps sid nid today aid l).2.1, r.nacc_id = nid)
      ∧ (∀ r ∈ (processAssets ps sid nid today aid l).2.2.1, r.nacc_id = nid)
      ∧ (∀ r ∈ (processAssets ps sid nid today aid l).2.2.2.1, r.nacc_id = nid)
      ∧ (∀ r ∈ (processAssets ps sid nid today aid l).2.2.2.2.1,
          r.nacc_id = nid) := by
  induction l generalizing aid with
  | nil =>
    refine ⟨?_, ?_, ?_, ?_, ?_⟩ <;> intro r hr <;> simp [processAssets] at hr
  | cons a t ih =>
    obtain ⟨i1, i2, i3, i4, i5⟩ := ih (aid + 1)
    obtain ⟨j1, j2, j3, j4, j5⟩ := processAsset_nacc_id ps sid nid today aid a
    rw [processAssets]
    dsimp only
    refine ⟨?_, ?_, ?_, ?_, ?_⟩
    · intro r hr
      rcases List.mem_cons.mp hr with rfl | hr
      · exact j1
      · exact i1 r hr
    · intro r hr
      rcases List.mem_append.mp hr with hr | hr
      · exact j2 r (Option.mem_def.mp (Option.mem_toList.mp hr))
      · exact i2 r hr
    · intro r hr
      rcases List.mem_append.mp hr with hr | hr
      · exact j3 r (Option.mem_def.mp (Option.mem_toList.mp hr))
      · exact i3 r hr
    · intro r hr
      rcases List.mem_append.mp hr with hr | hr
      · exact j4 r (Option.mem_def.mp (Option.mem_toList.mp hr))
      · exact i4 r hr
    · intro r hr
      rcases List.mem_append.mp hr with hr | hr
      · exact j5 r (Option.mem_def.mp (Option.mem_toList.mp hr))
      · exact i5 r hr

/-- Every submitter old-name row carries the `nacc_id` it was called
with. -/
theorem submitterOldNameRows_nacc_id (sid : ℕ) (nid : Val) (today : String)
    (idx : ℕ) (l : List OldNameE) :
    ∀ r ∈ submitterOldNameRows sid nid today idx l, r.nacc_id = nid := by
  induction l generalizing idx with
  | nil => intro r hr; cases hr
  | cons o t ih =>
    intro r hr
    rcases List.mem_cons.mp hr with rfl | hr
    · rcases o with s | ob <;> rfl
    · exact ih (idx + 1) r hr

/-- Every spouse old-name row carries the `nacc_id` it was called with. -/
theorem spouseOldNameRows_nacc_id (spid sid : ℕ) (nid : Val) (today : String)
    (idx : ℕ) (l : List OldNameE) :
    ∀ r ∈ spouseOldNameRows spid sid nid today idx l, r.nacc_id = nid := by
  induction l generalizing idx with
  | nil => intro r hr; cases hr
  | cons o t ih =>
    intro r hr
    rcases List.mem_cons.mp hr with rfl | hr
    · rcases o with s | ob <;> rfl
    · exact ih (idx + 1) r hr

/-- Every submitter-side row carries the `nacc_id` it was called with. -/
theorem processSubmitter_nacc_id (data : ParsedDoc) (sid : ℕ) (nid : Val)
    (today : String) :
    (∀ r ∈ (processSubmitter data sid nid today).1, r.nacc_id = nid)
      ∧ (∀ r ∈ (processSubmitter data sid nid today).2.1, r.nacc_id = nid)
      ∧ (∀ r ∈ (processSubmitter data sid nid today).2.2, r.nacc_id = nid) := by
  rw [processSubmitter]
  rcases pyGet data.submitter_info with _ | sub
  · refine ⟨?_, ?_, ?_⟩ <;> intro r hr <;> simp at hr
  · dsimp only
    refine ⟨?_, ?_, ?_⟩
    · intro r hr
      rw [List.mem_singleton] at hr
      subst hr
      rfl
    · intro r hr
      rcases List.mem_map.mp hr with ⟨p, _, rfl⟩
      rfl
    · exact submitterOldNameRows_nacc_id sid nid today 1 _
/-- Every spouse-side row carries the `nacc_id` it was called with. -/
theorem processSpouse_nacc_id (data : ParsedDoc) (sid : ℕ) (nid : Val)
    (today : String) (spc : ℕ) :
    (∀ r ∈ (processSpouse data sid nid today spc).1, r.nacc_id = nid)
      ∧ (∀ r ∈ (processSpouse data sid nid today spc).2.1, r.nacc_id = nid)
      ∧ (∀ r ∈ (processSpouse data sid nid today spc).2.2.1,
          r.nacc_id = nid) := by
  rw [processSpouse]
  rcases pyGet data.spouse_info with _ | sp
  · refine ⟨?_, ?_, ?_⟩ <;> intro r hr <;> simp at hr
  · dsimp only
    refine ⟨?_, ?_, ?_⟩
    · intro r hr
      rw [List.mem_singleton] at hr
      subst hr
      rfl
    · exact spouseOldNameRows_nacc_id spc sid nid today 1 _
    · intro r hr
      rcases List.mem_map.mp hr with ⟨p, _, rfl⟩
      rfl

/-- The summary dict's identifier cells are the values `_generate_summary`
was called with. -/
theorem generateSummary_ids (ndReg : String → Option NaccDetail)
    (siReg : String → Option SubmitterInput) (data : ParsedDoc)
    (sid : ℕ) (nid : Val) (nstr : String) (did : Val) (spc : ℕ) :
    lookupD (generateSummary ndReg siReg data sid nid nstr did spc) "id"
        = some nid
      ∧ lookupD (generateSummary ndReg siReg data sid nid nstr did spc)
          "doc_id" = some did :=
  ⟨rfl, rfl⟩

/-- C3.  For a document processed under registry overrides
(`override_doc_id`, `override_nacc_id` — the values
`process_from_doc_info` takes from the `doc_info` registry), every row
appended to any accumulator carries the registry `nacc_id`, and the
summary row carries the registry `nacc_id` and `doc_id` — whatever
identifiers the canonical document itself embeds. -/
theorem registry_ids_override_rows (ps : Parsers)
    (ndReg : String → Option NaccDetail)
    (siReg : String → Option SubmitterInput) (today : String) (st : Accums)
    (data : ParsedDoc) (sidArg : Option ℕ) (d : String) (n : ℤ) :
    (∀ r ∈ (processDocument ps ndReg siReg today st data sidArg (some d)
        (some n)).1.statements, r ∈ st.statements ∨ r.nacc_id = Val.vint n)
    ∧ (∀ r ∈ (processDocument ps ndReg siReg today st data sidArg (some d)
        (some n)).1.statement_details,
        r ∈ st.statement_details ∨ r.nacc_id = Val.vint n)
    ∧ (∀ r ∈ (processDocument ps ndReg siReg today st data sidArg (some d)
        (some n)).1.assets, r ∈ st.assets ∨ r.nacc_id = Val.vint n)
    ∧ (∀ r ∈ (processDocument ps ndReg siReg today st data sidArg (some d)
        (some n)).1.asset_land_infos,
        r ∈ st.asset_land_infos ∨ r.nacc_id = Val.vint n)
    ∧ (∀ r ∈ (processDocument ps ndReg siReg today st data sidArg (some d)
        (some n)).1.asset_building_infos,
        r ∈ st.asset_building_infos ∨ r.nacc_id = Val.vint n)
    ∧ (∀ r ∈ (processDocument ps ndReg siReg today st data sidArg (some d)
        (some n)).1.asset_vehicle_infos,
        r ∈ st.asset_vehicle_infos ∨ r.nacc_id = Val.vint n)
    ∧ (∀ r ∈ (processDocument ps ndReg siReg today st data sidArg (some d)
        (some n)).1.asset_other_infos,
        r ∈ st.asset_other_infos ∨ r.nacc_id = Val.vint n)
    ∧ (∀ r ∈ (processDocument ps ndReg siReg today st data sidArg (some d)
        (some n)).1.submitter_infos,
        r ∈ st.submitter_infos ∨ r.nacc_id = Val.vint n)
    ∧ (∀ r ∈ (processDocument ps ndReg siReg today st data sidArg (some d)
        (some n)).1.submitter_old_names,
        r ∈ st.submitter_old_names ∨ r.nacc_id = Val.vint n)
    ∧ (∀ r ∈ (processDocument ps ndReg siReg today st data sidArg (some d)
        (some n)).1.submitter_positions,
        r ∈ st.submitter_positions ∨ r.nacc_id = Val.vint n)
    ∧ (∀ r ∈ (processDocument ps ndReg siReg today st data sidArg (some d)
        (some n)).1.spouse_infos,
        r ∈ st.spouse_infos ∨ r.nacc_id = Val.vint n)
    ∧ (∀ r ∈ (processDocument ps ndReg siReg today st data sidArg (some d)
        (some n)).1.spouse_old_names,
        r ∈ st.spouse_old_names ∨ r.nacc_id = Val.vint n)
    ∧ (∀ r ∈ (processDocument ps ndReg siReg today st data sidArg (some d)
        (some n)).1.spouse_positions,
        r ∈ st.spouse_positions ∨ r.nacc_id = Val.vint n)
    ∧ (∀ r ∈ (processDocument ps ndReg siReg today st data sidArg (some d)
        (some n)).1.relative_infos,
        r ∈ st.relative_infos ∨ r.nacc_id = Val.vint n)
    ∧ (∀ s ∈ (processDocument ps ndReg siReg today st data sidArg (some d)
        (some n)).1.summaries,
        s ∈ st.summaries
          ∨ (lookupD s "id" = some (Val.vint n)
              ∧ lookupD s "doc_id" = some (Val.vstr d))) := by
  simp only [processDocument]
  refine ⟨?_, ?_, ?_, ?_, ?_, ?_, ?_, ?_, ?_, ?_, ?_, ?_, ?_, ?_, ?_⟩
  · intro r hr
    rcases List.mem_append.mp hr with h | h
    · exact Or.inl h
    · exact Or.inr (processStatements_nacc_id _ _ _ _ r h)
  · intro r hr
    rcases List.mem_append.mp hr with h | h
    · exact Or.inl h
    · exact Or.inr (processStatementDetails_nacc_id _ _ _ _ r h)
  · intro r hr
    rcases List.mem_append.mp hr with h | h
    · exact Or.inl h
    · exact Or.inr ((processAssets_nacc_id _ _ _ _ _ _).1 r h)
  · intro r hr
    rcases List.mem_append.mp hr with h | h
    · exact Or.inl h
    · exact Or.inr ((processAssets_nacc_id _ _ _ _ _ _).2.1 r h)
  · intro r hr
    rcases List.mem_append.mp hr with h | h
    · exact Or.inl h
    · exact Or.inr ((processAssets_nacc_id _ _ _ _ _ _).2.2.1 r h)
  · intro r hr
    rcases List.mem_append.mp hr with h | h
    · exact Or.inl h
    · exact Or.inr ((processAssets_nacc_id _ _ _ _ _ _).2.2.2.1 r h)
  · intro r hr
    rcases List.mem_append.mp hr with h | h
    · exact Or.inl h
    · exact Or.inr ((processAssets_nacc_id _ _ _ _ _ _).2.2.2.2 r h)
  · intro r hr
    rcases List.mem_append.mp hr with h | h
    · exact Or.inl h
    · exact Or.inr ((processSubmitter_nacc_id _ _ _ _).1 r h)
  · intro r hr
    rcases List.mem_append.mp hr with h | h
    · exact Or.inl h
    · exact Or.inr ((processSubmitter_nacc_id _ _ _ _).2.2 r h)
  · intro r hr
    rcases List.mem_append.mp hr with h | h
    · exact Or.inl h
    · exact Or.inr ((processSubmitter_nacc_id _ _ _ _).2.1 r h)
  · intro r hr
    rcases List.mem_append.mp hr with h | h
    · exact Or.inl h
    · exact Or.inr ((processSpouse_nacc_id _ _ _ _ _).1 r h)
  · intro r hr
    rcases List.mem_append.mp hr with h | h
    · exact Or.inl h
    · exact Or.inr ((processSpouse_nacc_id _ _ _ _ _).2.1 r h)
  · intro r hr
    rcases List.mem_append.mp hr with h | h
    · exact Or.inl h
    · exact Or.inr ((processSpouse_nacc_id _ _ _ _ _).2.2 r h)
  · intro r hr
    rcases List.mem_append.mp hr with h | h
    · exact Or.inl h
    · exact Or.inr (processRelatives_nacc_id _ _ _ _ _ r h)
  · intro s hsm
    rcases List.mem_append.mp hsm with h | h
    · exact Or.inl h
    · right
      rw [List.mem_singleton] at h
      subst h
      exact generateSummary_ids _ _ _ _ _ _ _ _

/-! ### C6: field semantics of `_merge_info` -/

/-- Looking a dict up at the key just set. -/
theorem pyDictGet_setKey_self (d : Dict) (k : String) (v : Val) :
    pyDictGet (setKey d k v) k = v := by
  rw [pyDictGet, lookupD_setKey_self]

/-- Setting one key leaves the others unchanged. -/
theorem pyDictGet_setKey_ne (d : Dict) (k k' : String) (v : Val)
    (h : k' ≠ k) : pyDictGet (setKey d k' v) k = pyDictGet d k := by
  rw [pyDictGet, lookupD_setKey_ne d k k' v h, pyDictGet]

/-- One `_merge_info` iteration rewrites its own key by `mergeCell`. -/
theorem pyDictGet_mergeStep_self (acc : Dict) (k : String) (v : Val) :
    pyDictGet (mergeStep acc k v) k = mergeCell (pyDictGet acc k) v := by
  rcases v with _ | s | n | q | b | l | dd <;>
    rcases hcur : pyDictGet acc k with _ | s2 | n2 | q2 | b2 | l2 | dd2 <;>
      simp [mergeStep, mergeCell, hcur, pyDictGet_setKey_self] <;>
        split_ifs <;> simp [pyDictGet_setKey_self, hcur]

/-- One `_merge_info` iteration leaves every other key unchanged. -/
theorem pyDictGet_mergeStep_ne (acc : Dict) (k k' : String) (v : Val)
    (h : k' ≠ k) : pyDictGet (mergeStep acc k' v) k = pyDictGet acc k := by
  rcases v with _ | s | n | q | b | l | dd <;>
    rcases hcur : pyDictGet acc k' with _ | s2 | n2 | q2 | b2 | l2 | dd2 <;>
      simp [mergeStep, hcur, pyDictGet_setKey_ne _ _ _ _ h] <;>
        split_ifs <;> simp [pyDictGet_setKey_ne _ _ _ _ h]

/-- The whole `_merge_info` loop: with unique incoming keys, each key of
the result reads as `mergeCell` of the accumulated and incoming values. -/
theorem mergeInfo_lookup (e B : Dict) (hnd : (B.map Prod.fst).Nodup)
    (k : String) :
    pyDictGet (B.foldl (fun acc kv => mergeStep acc kv.1 kv.2) e) k
      = match lookupD B k with
        | some v => mergeCell (pyDictGet e k) v
        | none => pyDictGet e k := by
  induction B generalizing e with
  | nil => simp [lookupD]
  | cons kv t ih =>
    simp only [List.map_cons, List.nodup_cons] at hnd
    simp only [List.foldl_cons]
    rw [ih _ hnd.2]
    by_cases hk : kv.1 = k
    · subst hk
      rw [lookupD_eq_none_of_not_mem t kv.1 hnd.1]
      simp only [lookupD, if_pos rfl]
      exact pyDictGet_mergeStep_self e kv.1 kv.2
    · simp only [lookupD, hk, if_false]
      rw [pyDictGet_mergeStep_ne e k kv.1 kv.2 hk]

/-- `true` exactly for a Python list value. -/
def isVlist (v : Val) : Bool :=
  match v with
  | Val.vlist _ => true
  | _ => false

/-- C6 (amended).  Merging nested info dicts across fragments
(`_merge_info`, incoming keys unique): a *truthy* accumulator field is
kept unchanged unless both sides are lists; a non-null incoming value
fills a previously-null (or absent) field; list-valued fields are
concatenated, accumulator part first; a key the incoming fragment lacks is
kept unchanged.  (The original claim — every *non-null* accumulator field
is kept — fails: a falsy non-null accumulator value, e.g. the empty
string, is overwritten by a non-empty incoming string; see the
counterexample.) -/
theorem merge_info_field_semantics (A B : Dict)
    (hnd : (B.map Prod.fst).Nodup) (k : String) (M : Dict)
    (hM : mergeInfo (some A) (some B) = some M) :
    (∀ v, lookupD B k = some v → v ≠ Val.vnull → pyDictGet A k = Val.vnull →
        pyDictGet M k = v)
      ∧ (∀ v, lookupD B k = some v → truthy (pyDictGet A k) = true →
          (isVlist (pyDictGet A k) = false ∨ isVlist v = false) →
          pyDictGet M k = pyDictGet A k)
      ∧ (∀ m l, pyDictGet A k = Val.vlist m → lookupD B k = some (Val.vlist l) →
          pyDictGet M k = Val.vlist (m ++ l))
      ∧ (lookupD B k = none → pyDictGet M k = pyDictGet A k) := by
  have hM' : M = B.foldl (fun acc kv => mergeStep acc kv.1 kv.2) A := by
    rw [mergeInfo] at hM
    exact (Option.some.inj hM).symm
  subst hM'
  rw [mergeInfo_lookup A B hnd k]
  refine ⟨?_, ?_, ?_, ?_⟩
  · intro v hv hvn hcur
    rw [hv, hcur]
    rcases v with _ | s | n | q | b | l | dd <;>
      first | exact absurd rfl hvn | rfl
  · intro v hv htr hnl
    rw [hv]
    rcases v with _ | s | n | q | b | l | dd <;>
      rcases hcur : pyDictGet A k with _ | s2 | n2 | q2 | b2 | l2 | dd2 <;>
        simp_all [mergeCell, truthy, isVlist]
  · intro m l hcur hv
    rw [hv, hcur]
    rfl
  · intro hv
    rw [hv]

/-- Counterexample for C6 as stated: the accumulator's `title` holds the
empty string — a non-null value — yet merging a fragment with a non-empty
`title` replaces it, so "a field already non-null in the accumulator is
kept unchanged" fails. -/
theorem merge_info_nonnull_overwritten_counterexample :
    pyDictGet [("title", Val.vstr "")] "title" = Val.vstr ""
      ∧ mergeInfo (some [("title", Val.vstr "")])
          (some [("title", Val.vstr "นาย")])
          = some [("title", Val.vstr "นาย")]
      ∧ ("" : String) ≠ "นาย" :=
  ⟨rfl, rfl, by decide⟩

/-- Witness for C6: fragment A sets `x` (null `y`), fragment B sets `y`
(null `x`); the merged record carries both values. -/
theorem merge_info_field_semantics_witness :
    pyDictGet [("x", Val.vstr "a"), ("y", Val.vstr "b")] "y" = Val.vstr "b"
      ∧ pyDictGet [("x", Val.vstr "a"), ("y", Val.vstr "b")] "x"
          = Val.vstr "a" := by
  have h1 := (merge_info_field_semantics
    [("x", Val.vstr "a"), ("y", Val.vnull)]
    [("x", Val.vnull), ("y", Val.vstr "b")] (by decide) "y"
    [("x", Val.vstr "a"), ("y", Val.vstr "b")] rfl).1
    (Val.vstr "b") rfl (by simp) rfl
  have h2 := (merge_info_field_semantics
    [("x", Val.vstr "a"), ("y", Val.vnull)]
    [("x", Val.vnull), ("y", Val.vstr "b")] (by decide) "x"
    [("x", Val.vstr "a"), ("y", Val.vstr "b")] rfl).2.1
    Val.vnull rfl rfl (Or.inr rfl)
  exact ⟨h1, h2⟩

/-! ### C7: deduplication of relatives and statements -/

/-- Full behaviour of the `_dedupe_relatives` loop, generalized over the
`seen` set: the output is a subsequence of the input, keeps exactly the
keys not yet seen, has pairwise-distinct keys, covers every unseen input
key, and every survivor is the first input element with its key. -/
theorem dedupeRelAux_spec
    (l : List RelativeP)
    (seen : List (Option String × Option String × Option ℤ)) :
    (dedupeRelAux seen l).Sublist l
      ∧ (∀ s ∈ dedupeRelAux seen l, relKey s ∉ seen)
      ∧ ((dedupeRelAux seen l).map relKey).Nodup
      ∧ (∀ r ∈ l, relKey r ∉ seen →
          ∃ s ∈ dedupeRelAux seen l, relKey s = relKey r)
      ∧ (∀ s ∈ dedupeRelAux seen l,
          l.find? (fun r => relKey r == relKey s) = some s) := by
  induction l generalizing seen with
  | nil =>
    exact ⟨List.Sublist.refl [], fun s hs => absurd hs (List.not_mem_nil s),
      List.nodup_nil, fun r hr => absurd hr (List.not_mem_nil r),
      fun s hs => absurd hs (List.not_mem_nil s)⟩
  | cons r t ih =>
    rw [dedupeRelAux]
    by_cases hmem : relKey r ∈ seen
    · rw [if_pos hmem]
      obtain ⟨ia, ib, ic, id, ie⟩ := ih seen
      refine ⟨ia.cons r, ib, ic, ?_, ?_⟩
      · intro x hx hxk
        rcases List.mem_cons.mp hx with rfl | hx
        · exact absurd hmem hxk
        · exact id x hx hxk
      · intro s hs
        have hne : ¬(relKey r == relKey s) = true := by
          rw [beq_iff_eq]
          intro he
          exact ib s hs (he ▸ hmem)
        rw [@List.find?_cons_of_neg _ (fun x => relKey x == relKey s) r t hne]
        exact ie s hs
    · rw [if_neg hmem]
      obtain ⟨ia, ib, ic, id, ie⟩ := ih (relKey r :: seen)
      refine ⟨ia.cons₂ r, ?_, ?_, ?_, ?_⟩
      · intro s hs
        rcases List.mem_cons.mp hs with rfl | hs
        · exact hmem
        · intro hk
          exact ib s hs (List.mem_cons_of_mem _ hk)
      · rw [List.map_cons, List.nodup_cons]
        constructor
        · intro hk
          rcases List.mem_map.mp hk with ⟨s, hs, hks⟩
          exact ib s hs (hks ▸ List.mem_cons_self _ _)
        · exact ic
      · intro x hx hxk
        rcases List.mem_cons.mp hx with rfl | hx
        · exact ⟨x, List.mem_cons_self _ _, rfl⟩
        · by_cases hk : relKey x = relKey r
          · exact ⟨r, List.mem_cons_self _ _, hk.symm⟩
          · obtain ⟨s, hs, hsk⟩ := id x hx (by
              intro hc
              rcases List.mem_cons.mp hc with hc | hc
              · exact hk hc
              · exact hxk hc)
            exact ⟨s, List.mem_cons_of_mem _ hs, hsk⟩
      · intro s hs
        rcases List.mem_cons.mp hs with rfl | hs
        · rw [@List.find?_cons_of_pos _ (fun x => relKey x == relKey s) s t
            (by simp)]
        · have hne : ¬(relKey r == relKey s) = true := by
            rw [beq_iff_eq]
            intro he
            exact ib s hs (he ▸ List.mem_cons_self _ _)
          rw [@List.find?_cons_of_neg _ (fun x => relKey x == relKey s) r t hne]
          exact ie s hs

/-- The survivor of one `statement_type_id` group: fold of the
keep-if-strictly-more-populated rule (the `else` branch of
`_dedupe_statements`) starting from the first occurrence. -/
def maxSel (e : Stmt) (g : List Stmt) : Stmt :=
  g.foldl (fun b x => if stmtCount b < stmtCount x then x else b) e

/-- The survivor is one of the group's elements. -/
theorem maxSel_mem (e : Stmt) (g : List Stmt) : maxSel e g ∈ e :: g := by
  induction g generalizing e with
  | nil => exact List.mem_singleton.mpr rfl
  | cons x g ih =>
    have hstep : maxSel e (x :: g)
        = maxSel (if stmtCount e < stmtCount x then x else e) g := by
      rw [maxSel, List.foldl_cons, maxSel]
    rw [hstep]
    by_cases h : stmtCount e < stmtCount x
    · rw [if_pos h]
      exact List.mem_cons_of_mem _ (ih x)
    · rw [if_neg h]
      rcases List.mem_cons.mp (ih e) with he | hg
      · rw [he]
        exact List.mem_cons_self _ _
      · exact List.mem_cons_of_mem _ (List.mem_cons_of_mem _ hg)

/-- The survivor's populated-field count dominates the whole group. -/
theorem maxSel_ge (e : Stmt) (g : List Stmt) :
    ∀ x ∈ e :: g, stmtCount x ≤ stmtCount (maxSel e g) := by
  induction g generalizing e with
  | nil =>
    intro x hx
    rw [List.mem_singleton.mp hx]
    exact le_refl _
  | cons y g ih =>
    intro x hx
    have hstep : maxSel e (y :: g)
        = maxSel (if stmtCount e < stmtCount y then y else e) g := by
      rw [maxSel, List.foldl_cons, maxSel]
    rw [hstep]
    by_cases h : stmtCount e < stmtCount y
    · rw [if_pos h]
      rcases List.mem_cons.mp hx with hxe | hx
      · rw [hxe]
        exact le_of_lt (lt_of_lt_of_le h (ih y y (List.mem_cons_self _ _)))
      · exact ih y x hx
    · rw [if_neg h]
      rcases List.mem_cons.mp hx with hxe | hx
      · rw [hxe]
        exact ih e e (List.mem_cons_self _ _)
      · rcases List.mem_cons.mp hx with hxy | hx
        · rw [hxy]
          exact le_trans (Nat.le_of_not_lt h) (ih e e (List.mem_cons_self _ _))
        · exact ih e x (List.mem_cons_of_mem _ hx)

/-- The survivor is the first element of its group attaining the group
maximum: everything before it is strictly less populated, everything after
it at most as populated. -/
theorem maxSel_decomp (e : Stmt) (g : List Stmt) :
    ∃ g1 g2, e :: g = g1 ++ maxSel e g :: g2
      ∧ (∀ x ∈ g1, stmtCount x < stmtCount (maxSel e g))
      ∧ (∀ x ∈ g2, stmtCount x ≤ stmtCount (maxSel e g)) := by
  induction g generalizing e with
  | nil =>
    refine ⟨[], [], rfl, ?_, ?_⟩ <;> intro x hx <;> cases hx
  | cons y g ih =>
    have hstep : maxSel e (y :: g)
        = maxSel (if stmtCount e < stmtCount y then y else e) g := by
      rw [maxSel, List.foldl_cons, maxSel]
    by_cases h : stmtCount e < stmtCount y
    · rw [if_pos h] at hstep
      obtain ⟨g1, g2, hsplit, h1, h2⟩ := ih y
      refine ⟨e :: g1, g2, ?_, ?_, ?_⟩
      · rw [hstep, List.cons_append, ← hsplit]
      · intro x hx
        rw [hstep]
        rcases List.mem_cons.mp hx with hxe | hx
        · rw [hxe]
          exact lt_of_lt_of_le h (maxSel_ge y g y (List.mem_cons_self _ _))
        · exact h1 x hx
      · intro x hx
        rw [hstep]
        exact h2 x hx
    · rw [if_neg h] at hstep
      obtain ⟨g1, g2, hsplit, h1, h2⟩ := ih e
      rcases g1 with _ | ⟨z, rest⟩
      · rw [List.nil_append] at hsplit
        injection hsplit with he hg
        refine ⟨[], y :: g, ?_, ?_, ?_⟩
        · rw [hstep, List.nil_append, ← he]
        · intro x hx
          cases hx
        · intro x hx
          rw [hstep, ← he]
          rcases List.mem_cons.mp hx with hxy | hx
          · rw [hxy]
            exact Nat.le_of_not_lt h
          · have hle := h2 x (hg ▸ hx)
            rw [← he] at hle
            exact hle
      · rw [List.cons_append] at hsplit
        injection hsplit with hz hg
        subst hz
        refine ⟨e :: y :: rest, g2, ?_, ?_, ?_⟩
        · rw [hstep, List.cons_append, List.cons_append, ← hg]
        · intro x hx
          rw [hstep]
          have hzlt : stmtCount e < stmtCount (maxSel e g) :=
            h1 e (List.mem_cons_self _ _)
          rcases List.mem_cons.mp hx with hxe | hx
          · rw [hxe]
            exact hzlt
          · rcases List.mem_cons.mp hx with hxy | hx
            · rw [hxy]
              exact lt_of_le_of_lt (Nat.le_of_not_lt h) hzlt
            · exact h1 x (List.mem_cons_of_mem _ hx)
        · intro x hx
          rw [hstep]
          exact h2 x hx

/-- Looking the `by_type` map up at the key just set. -/
theorem lookupTy_setTy_self (bt : List (Option ℤ × Stmt)) (t : Option ℤ)
    (s : Stmt) : lookupTy (setTy bt t s) t = some s := by
  induction bt with
  | nil => simp [setTy, lookupTy]
  | cons p r ih =>
    rw [setTy]
    by_cases h : p.1 = t
    · rw [if_pos h, lookupTy, if_pos rfl]
    · rw [if_neg h, lookupTy, if_neg h]
      exact ih

/-- Setting one `by_type` key leaves the others unchanged. -/
theorem lookupTy_setTy_ne (bt : List (Option ℤ × Stmt)) (t t' : Option ℤ)
    (s : Stmt) (h : t' ≠ t) :
    lookupTy (setTy bt t' s) t = lookupTy bt t := by
  induction bt with
  | nil => simp [setTy, lookupTy, h]
  | cons p r ih =>
    rw [setTy]
    by_cases hp : p.1 = t'
    · rw [if_pos hp, lookupTy, if_neg h, lookupTy, if_neg (hp ▸ h)]
    · rw [if_neg hp, lookupTy, lookupTy]
      by_cases hp2 : p.1 = t
      · rw [if_pos hp2, if_pos hp2]
      · rw [if_neg hp2, if_neg hp2]
        exact ih

/-- Lookup after appending a fresh entry at the end. -/
theorem lookupTy_append_single (bt : List (Option ℤ × Stmt)) (t0 t : Option ℤ)
    (s : Stmt) :
    lookupTy (bt ++ [(t0, s)]) t
      = match lookupTy bt t with
        | some e => some e
        | none => if t0 = t then some s else none := by
  induction bt with
  | nil => simp [lookupTy]
  | cons p r ih =>
    rw [List.cons_append, lookupTy, lookupTy]
    by_cases h : p.1 = t
    · rw [if_pos h, if_pos h]
    · rw [if_neg h, if_neg h]
      exact ih

/-- Lookup through the whole `_dedupe_statements` fold: each type key holds
the survivor (`maxSel`) of its filtered group. -/
theorem dedupe_fold_lookup (l : List Stmt) (bt : List (Option ℤ × Stmt))
    (t : Option ℤ) :
    lookupTy (l.foldl dedupeStep bt) t
      = match lookupTy bt t, l.filter (fun s => stmtType s == t) with
        | none, [] => none
        | none, h :: g => some (maxSel h g)
        | some e, g => some (maxSel e g) := by
  induction l generalizing bt with
  | nil =>
    rcases he : lookupTy bt t with _ | e <;> simp [he, maxSel]
  | cons s l' ih =>
    rw [List.foldl_cons, ih (dedupeStep bt s)]
    by_cases hts : stmtType s = t
    · subst hts
      have hfil : (s :: l').filter (fun x => stmtType x == stmtType s)
          = s :: l'.filter (fun x => stmtType x == stmtType s) := by
        simp [List.filter_cons]
      rw [hfil]
      rcases he : lookupTy bt (stmtType s) with _ | e
      · have hbt : lookupTy (dedupeStep bt s) (stmtType s) = some s := by
          rw [dedupeStep, he]
          dsimp only
          rw [lookupTy_append_single, he]
          dsimp only
          rw [if_pos rfl]
        rw [hbt]
      · have hbt : lookupTy (dedupeStep bt s) (stmtType s)
            = some (if stmtCount e < stmtCount s then s else e) := by
          rw [dedupeStep, he]
          dsimp only
          by_cases hc : stmtCount e < stmtCount s
          · rw [if_pos hc, if_pos hc]
            exact lookupTy_setTy_self bt (stmtType s) s
          · rw [if_neg hc, if_neg hc]
            exact he
        rw [hbt]
        have hsel : maxSel e (s :: l'.filter (fun x => stmtType x == stmtType s))
            = maxSel (if stmtCount e < stmtCount s then s else e)
                (l'.filter (fun x => stmtType x == stmtType s)) := by
          rw [maxSel, List.foldl_cons, maxSel]
        dsimp only
        rw [hsel]
    · have hfil : (s :: l').filter (fun x => stmtType x == t)
          = l'.filter (fun x => stmtType x == t) := by
        simp [List.filter_cons, hts]
      rw [hfil]
      have hbt : lookupTy (dedupeStep bt s) t = lookupTy bt t := by
        rw [dedupeStep]
        rcases he : lookupTy bt (stmtType s) with _ | e
        · dsimp only
          rw [lookupTy_append_single]
          rcases h2 : lookupTy bt t with _ | u
          · dsimp only
            rw [if_neg hts]
          · rfl
        · dsimp only
          by_cases hc : stmtCount e < stmtCount s
          · rw [if_pos hc]
            exact lookupTy_setTy_ne bt t (stmtType s) s hts
          · rw [if_neg hc]
      rw [hbt]

/-- An entry of `setTy` is either an old entry or the new binding. -/
theorem mem_setTy (bt : List (Option ℤ × Stmt)) (t : Option ℤ) (s : Stmt)
    (p : Option ℤ × Stmt) (h : p ∈ setTy bt t s) : p ∈ bt ∨ p = (t, s) := by
  induction bt with
  | nil =>
    rw [setTy] at h
    exact Or.inr (List.mem_singleton.mp h)
  | cons q r ih =>
    rw [setTy] at h
    by_cases hq : q.1 = t
    · rw [if_pos hq] at h
      rcases List.mem_cons.mp h with rfl | h
      · exact Or.inr rfl
      · exact Or.inl (List.mem_cons_of_mem _ h)
    · rw [if_neg hq] at h
      rcases List.mem_cons.mp h with rfl | h
      · exact Or.inl (List.mem_cons_self _ _)
      · rcases ih h with h | h
        · exact Or.inl (List.mem_cons_of_mem _ h)
        · exact Or.inr h

/-- Replacing a present key does not change the key list. -/
theorem keys_setTy_of_mem (bt : List (Option ℤ × Stmt)) (t : Option ℤ)
    (s : Stmt) (h : t ∈ bt.map Prod.fst) :
    (setTy bt t s).map Prod.fst = bt.map Prod.fst := by
  induction bt with
  | nil => cases h
  | cons q r ih =>
    rw [setTy]
    by_cases hq : q.1 = t
    · rw [if_pos hq]
      simp [hq]
    · rw [if_neg hq]
      simp only [List.map_cons] at h ⊢
      rcases List.mem_cons.mp h with h2 | h2
      · exact absurd h2.symm hq
      · rw [ih h2]

/-- A key is absent exactly when its lookup fails. -/
theorem lookupTy_none_iff (bt : List (Option ℤ × Stmt)) (t : Option ℤ) :
    lookupTy bt t = none ↔ t ∉ bt.map Prod.fst := by
  induction bt with
  | nil => simp [lookupTy]
  | cons q r ih =>
    rw [lookupTy]
    by_cases hq : q.1 = t
    · simp [hq]
    · rw [if_neg hq]
      simp only [List.map_cons, List.mem_cons]
      rw [ih]
      constructor
      · intro h hc
        rcases hc with hc | hc
        · exact hq hc.symm
        · exact h hc
      · intro h
        exact fun hc => h (Or.inr hc)

/-- With unique keys, a map entry is found by its key. -/
theorem lookupTy_of_mem_nodup (bt : List (Option ℤ × Stmt))
    (hnd : (bt.map Prod.fst).Nodup) (t : Option ℤ) (u : Stmt)
    (h : (t, u) ∈ bt) : lookupTy bt t = some u := by
  induction bt with
  | nil => cases h
  | cons q r ih =>
    simp only [List.map_cons, List.nodup_cons] at hnd
    rw [lookupTy]
    rcases List.mem_cons.mp h with rfl | h
    · rw [if_pos rfl]
    · have hne : q.1 ≠ t := by
        intro he
        exact hnd.1 (he ▸ List.mem_map_of_mem Prod.fst h)
      rw [if_neg hne]
      exact ih hnd.2 h

/-- A found entry is a map entry. -/
theorem mem_of_lookupTy (bt : List (Option ℤ × Stmt)) (t : Option ℤ)
    (u : Stmt) (h : lookupTy bt t = some u) : (t, u) ∈ bt := by
  induction bt with
  | nil => cases h
  | cons q r ih =>
    rw [lookupTy] at h
    by_cases hq : q.1 = t
    · rw [if_pos hq] at h
      have : q = (t, u) := by
        rcases q with ⟨q1, q2⟩
        simp only at hq
        cases Option.some.inj h
        rw [hq]
      exact this ▸ List.mem_cons_self _ _
    · rw [if_neg hq] at h
      exact List.mem_cons_of_mem _ (ih h)

/-- An entry of one dedupe step is an old entry or the new statement keyed
by its own type. -/
theorem mem_dedupeStep (bt : List (Option ℤ × Stmt)) (s : Stmt)
    (p : Option ℤ × Stmt) (h : p ∈ dedupeStep bt s) :
    p ∈ bt ∨ p = (stmtType s, s) := by
  rw [dedupeStep] at h
  rcases he : lookupTy bt (stmtType s) with _ | e
  · rw [he] at h
    dsimp only at h
    rcases List.mem_append.mp h with h | h
    · exact Or.inl h
    · exact Or.inr (List.mem_singleton.mp h)
  · rw [he] at h
    dsimp only at h
    by_cases hc : stmtCount e < stmtCount s
    · rw [if_pos hc] at h
      exact mem_setTy bt (stmtType s) s p h
    · rw [if_neg hc] at h
      exact Or.inl h

/-- Every entry of the fold is keyed by its statement's own type. -/
theorem fold_entries_consistent (l : List Stmt)
    (bt : List (Option ℤ × Stmt)) (h : ∀ p ∈ bt, stmtType p.2 = p.1) :
    ∀ p ∈ l.foldl dedupeStep bt, stmtType p.2 = p.1 := by
  induction l generalizing bt with
  | nil => exact h
  | cons s l' ih =>
    rw [List.foldl_cons]
    refine ih (dedupeStep bt s) ?_
    intro p hp
    rcases mem_dedupeStep bt s p hp with hp | hp
    · exact h p hp
    · rw [hp]

/-- One dedupe step preserves key uniqueness. -/
theorem dedupeStep_keys_nodup (bt : List (Option ℤ × Stmt)) (s : Stmt)
    (hnd : (bt.map Prod.fst).Nodup) :
    ((dedupeStep bt s).map Prod.fst).Nodup := by
  rw [dedupeStep]
  rcases he : lookupTy bt (stmtType s) with _ | e
  · dsimp only
    rw [List.map_append]
    simp only [List.map_cons, List.map_nil]
    rw [List.nodup_append]
    exact ⟨hnd, List.nodup_singleton _,
      by
        intro a ha hb
        rw [List.mem_singleton] at hb
        exact (lookupTy_none_iff bt (stmtType s)).mp he (hb ▸ ha)⟩
  · dsimp only
    by_cases hc : stmtCount e < stmtCount s
    · rw [if_pos hc]
      rw [keys_setTy_of_mem bt (stmtType s) s]
      · exact hnd
      · by_contra hmem
        rw [← lookupTy_none_iff] at hmem
        rw [hmem] at he
        cases he
    · rw [if_neg hc]
      exact hnd

/-- The whole fold preserves key uniqueness. -/
theorem fold_keys_nodup (l : List Stmt) (bt : List (Option ℤ × Stmt))
    (hnd : (bt.map Prod.fst).Nodup) :
    ((l.foldl dedupeStep bt).map Prod.fst).Nodup := by
  induction l generalizing bt with
  | nil => exact hnd
  | cons s l' ih =>
    rw [List.foldl_cons]
    exact ih (dedupeStep bt s) (dedupeStep_keys_nodup bt s hnd)

/-- C7.  After the merge step: statements collapse to exactly one survivor
per `statement_type_id` — a member of the input whose group decomposes as
strictly-less-populated predecessors, the survivor, and at-most-as-
populated successors (strictly more non-null fields wins, ties go to the
first occurrence); and relatives collapse to the first occurrence of each
`(first_name, last_name, relationship_id)` key, as a subsequence covering
every input key with pairwise-distinct keys. -/
theorem dedupe_after_merge_spec (ls : List Stmt) (lr : List RelativeP) :
    (∀ u ∈ dedupeStatements ls, u ∈ ls)
      ∧ ((dedupeStatements ls).map stmtType).Nodup
      ∧ (∀ s ∈ ls, ∃ u ∈ dedupeStatements ls, stmtType u = stmtType s)
      ∧ (∀ u ∈ dedupeStatements ls, ∃ g1 g2,
          ls.filter (fun x => stmtType x == stmtType u) = g1 ++ u :: g2
            ∧ (∀ x ∈ g1, stmtCount x < stmtCount u)
            ∧ (∀ x ∈ g2, stmtCount x ≤ stmtCount u))
      ∧ (dedupeRelatives lr).Sublist lr
      ∧ ((dedupeRelatives lr).map relKey).Nodup
      ∧ (∀ r ∈ lr, ∃ s ∈ dedupeRelatives lr, relKey s = relKey r)
      ∧ (∀ s ∈ dedupeRelatives lr,
          lr.find? (fun r => relKey r == relKey s) = some s) := by
  obtain ⟨ra, _, rc, rd, re⟩ := dedupeRelAux_spec lr []
  have hcons : ∀ p ∈ ls.foldl dedupeStep [], stmtType p.2 = p.1 :=
    fold_entries_consistent ls [] (by intro p hp; cases hp)
  have hnd : ((ls.foldl dedupeStep []).map Prod.fst).Nodup :=
    fold_keys_nodup ls [] List.nodup_nil
  have hlk : ∀ u ∈ dedupeStatements ls,
      lookupTy (ls.foldl dedupeStep []) (stmtType u) = some u := by
    intro u hu
    rw [dedupeStatements] at hu
    rcases List.mem_map.mp hu with ⟨p, hp, hsnd⟩
    have hkey : stmtType u = p.1 := by
      rw [← hsnd]
      exact hcons p hp
    rw [hkey]
    refine lookupTy_of_mem_nodup _ hnd p.1 u ?_
    rcases p with ⟨p1, p2⟩
    cases hsnd
    exact hp
  have hshape : ∀ u ∈ dedupeStatements ls,
      ∃ h0 g, ls.filter (fun x => stmtType x == stmtType u)
          = h0 :: g ∧ u = maxSel h0 g := by
    intro u hu
    have h1 := hlk u hu
    rw [dedupe_fold_lookup ls [] (stmtType u)] at h1
    rcases hfil : ls.filter (fun x => stmtType x == stmtType u) with _ | ⟨h0, g⟩
    · rw [hfil] at h1
      cases h1
    · rw [hfil] at h1
      dsimp only [lookupTy] at h1
      exact ⟨h0, g, rfl, (Option.some.inj h1).symm⟩
  refine ⟨?_, ?_, ?_, ?_, ra, rc, fun r hr => rd r hr (List.not_mem_nil _), re⟩
  · intro u hu
    obtain ⟨h0, g, hfil, hmax⟩ := hshape u hu
    have hmem : u ∈ h0 :: g := hmax ▸ maxSel_mem h0 g
    rw [← hfil] at hmem
    exact (List.mem_filter.mp hmem).1
  · rw [dedupeStatements, List.map_map]
    have : (ls.foldl dedupeStep []).map (stmtType ∘ Prod.snd)
        = (ls.foldl dedupeStep []).map Prod.fst :=
      List.map_congr_left (fun p hp => hcons p hp)
    rw [this]
    exact hnd
  · intro s hs
    rcases hfil : ls.filter (fun x => stmtType x == stmtType s) with _ | ⟨h0, g⟩
    · have : s ∈ ls.filter (fun x => stmtType x == stmtType s) :=
        List.mem_filter.mpr ⟨hs, by simp⟩
      rw [hfil] at this
      cases this
    · have h1 := dedupe_fold_lookup ls [] (stmtType s)
      rw [hfil] at h1
      dsimp only [lookupTy] at h1
      have hmem := mem_of_lookupTy _ _ _ h1
      have humem : maxSel h0 g ∈ dedupeStatements ls := by
        rw [dedupeStatements]
        exact List.mem_map.mpr ⟨(stmtType s, maxSel h0 g), hmem, rfl⟩
      refine ⟨maxSel h0 g, humem, ?_⟩
      have : maxSel h0 g ∈ h0 :: g := maxSel_mem h0 g
      rw [← hfil] at this
      have := (List.mem_filter.mp this).2
      rwa [beq_iff_eq] at this
  · intro u hu
    obtain ⟨h0, g, hfil, hmax⟩ := hshape u hu
    obtain ⟨g1, g2, hsplit, h1, h2⟩ := maxSel_decomp h0 g
    rw [← hmax] at hsplit h1 h2
    exact ⟨g1, g2, hfil ▸ hsplit, h1, h2⟩

/-! ### C1: in-memory summary aggregates versus the validation SQL -/

/-- Reading SQL `NULL` as `0`, a `SUM` is the sum of the defaulted
inputs. -/
theorem sqlSum_getD (l : List (Option ℚ)) :
    (sqlSum l).getD 0 = l.reduceOption.sum := by
  rw [sqlSum]
  rcases h : l.reduceOption with _ | ⟨x, r⟩
  · simp
  · simp [h]

/-- Dropping `NULL`s before summing equals summing the `getD 0` values. -/
theorem reduceOption_map_sum {α : Type} (l : List α) (f : α → Option ℚ) :
    ((l.map f).reduceOption).sum = (l.map (fun x => (f x).getD 0)).sum := by
  induction l with
  | nil => rfl
  | cons x t ih =>
    rcases h : f x with _ | q <;>
      simp [List.reduceOption_cons_of_some, h, ih]

/-- Reading SQL `NULL` as `0`, `COUNT(*)` of one group is its row count. -/
theorem sqlCount_getD {α : Type} (l : List α) :
    (sqlCount l).getD 0 = l.length := by
  rw [sqlCount]
  rcases l with _ | ⟨x, r⟩ <;> simp

/-- Reading SQL `NULL` as `0`, `SUM(count)` with unit counts is the row
count. -/
theorem sqlSumOnes_getD {α : Type} (l : List α) :
    (sqlSumOnes l).getD 0 = l.length := by
  rw [sqlSumOnes]
  rcases l with _ | ⟨x, r⟩
  · simp
  · simp [List.map_const]
    omega

/-- The inserted-then-summed value of a stored valuation cell equals the
summary generator's `or 0` reading of the payload field. -/
theorem insVal_sg_getD (f : Field ℚ) :
    (insVal (sg Val.vfloat f (Val.vstr ""))).getD 0 = valOrZero f := by
  rcases f with _ | ⟨_ | q⟩
  · rfl
  · rfl
  · by_cases h : q = 0
    · simp [insVal, sg, truthy, valOrZero, h]
    · simp [insVal, sg, truthy, valOrZero, h]

/-- Summing a guarded projection over a filter equals summing the guarded
terms. -/
theorem filter_map_sum {α : Type} (l : List α) (c : α → Bool) (v : α → ℚ) :
    ((l.filter c).map v).sum = (l.map (fun a => if c a then v a else 0)).sum := by
  induction l with
  | nil => rfl
  | cons x t ih =>
    rw [List.filter_cons]
    by_cases h : c x
    · simp [h, ih]
    · simp [h, ih]

/-- The asset-row list is as long as the asset payload list. -/
theorem processAssets_length (ps : Parsers) (sid : ℕ) (nid : Val)
    (today : String) (aid : ℕ) (l : List AssetP) :
    (processAssets ps sid nid today aid l).1.length = l.length := by
  induction l generalizing aid with
  | nil => rfl
  | cons a t ih =>
    rw [processAssets]
    simp [ih (aid + 1)]

/-- A sum of a per-row quantity over the asset rows equals the sum of the
matching per-payload quantity, whenever they agree asset by asset. -/
theorem processAssets_map_sum (ps : Parsers) (sid : ℕ) (nid : Val)
    (today : String) (F : AssetRow → ℚ) (G : AssetP → ℚ) (l : List AssetP)
    (h : ∀ a ∈ l, ∀ aid, F (processAsset ps sid nid today aid a).1 = G a) :
    ∀ aid, ((processAssets ps sid nid today aid l).1.map F).sum
      = (l.map G).sum := by
  induction l with
  | nil => intro aid; rfl
  | cons a t ih =>
    intro aid
    rw [processAssets]
    simp only [List.map_cons, List.sum_cons]
    rw [h a (List.mem_cons_self _ _) aid,
      ih (fun x hx => h x (List.mem_cons_of_mem _ hx)) (aid + 1)]

/-- The land sub-table receives a row exactly when the type code is a land
code. -/
theorem processAsset_land_isSome (ps : Parsers) (sid : ℕ) (nid : Val)
    (today : String) (aid : ℕ) (a : AssetP) :
    (processAsset ps sid nid today aid a).2.1.isSome
      = optMem (pyGetD a.asset_type_id 39) [1, 2, 3, 4] := by
  rw [processAsset]
  dsimp only
  split_ifs with h <;> simp [h]

/-- The building sub-table receives a row exactly when the type code is a
building code. -/
theorem processAsset_building_isSome (ps : Parsers) (sid : ℕ) (nid : Val)
    (today : String) (aid : ℕ) (a : AssetP) :
    (processAsset ps sid nid today aid a).2.2.1.isSome
      = optMem (pyGetD a.asset_type_id 39) [10, 11, 13, 37] := by
  rw [processAsset]
  dsimp only
  split_ifs with h <;> simp [h]

/-- The vehicle sub-table receives a row exactly when the type code is a
vehicle code. -/
theorem processAsset_vehicle_isSome (ps : Parsers) (sid : ℕ) (nid : Val)
    (today : String) (aid : ℕ) (a : AssetP) :
    (processAsset ps sid nid today aid a).2.2.2.1.isSome
      = optMem (pyGetD a.asset_type_id 39) [18, 19, 20] := by
  rw [processAsset]
  dsimp only
  split_ifs with h <;> simp [h]

/-- The other sub-table receives a row exactly when the type code is none
of the dispatched codes. -/
theorem processAsset_other_isSome (ps : Parsers) (sid : ℕ) (nid : Val)
    (today : String) (aid : ℕ) (a : AssetP) :
    (processAsset ps sid nid today aid a).2.2.2.2.isSome
      = !(optMem (pyGetD a.asset_type_id 39)
          [1, 2, 3, 4, 10, 11, 13, 18, 19, 20, 37]) := by
  rw [processAsset]
  dsimp only
  split_ifs with h <;> simp [h]

/-- Length of an optional row's list form. -/
theorem toList_length {α : Type} (o : Option α) :
    o.toList.length = if o.isSome then 1 else 0 := by
  rcases o <;> rfl

/-- The land-row count is the count of land-dispatched assets. -/
theorem processAssets_land_length (ps : Parsers) (sid : ℕ) (nid : Val)
    (today : String) (l : List AssetP) : ∀ aid,
    (processAssets ps sid nid today aid l).2.1.length
      = l.countP (fun a => optMem (pyGetD a.asset_type_id 39) [1, 2, 3, 4]) := by
  induction l with
  | nil => intro aid; rfl
  | cons a t ih =>
    intro aid
    rw [processAssets, List.countP_cons]
    simp only [List.length_append]
    rw [toList_length, processAsset_land_isSome, ih (aid + 1)]
    cases hopt : optMem (pyGetD a.asset_type_id 39) [1, 2, 3, 4] <;>
      simp [hopt] <;> omega

/-- The building-row count is the count of building-dispatched assets. -/
theorem processAssets_building_length (ps : Parsers) (sid : ℕ) (nid : Val)
    (today : String) (l : List AssetP) : ∀ aid,
    (processAssets ps sid nid today aid l).2.2.1.length
      = l.countP
          (fun a => optMem (pyGetD a.asset_type_id 39) [10, 11, 13, 37]) := by
  induction l with
  | nil => intro aid; rfl
  | cons a t ih =>
    intro aid
    rw [processAssets, List.countP_cons]
    simp only [List.length_append]
    rw [toList_length, processAsset_building_isSome, ih (aid + 1)]
    cases hopt : optMem (pyGetD a.asset_type_id 39) [10, 11, 13, 37] <;>
      simp [hopt] <;> omega

/-- The vehicle-row count is the count of vehicle-dispatched assets. -/
theorem processAssets_vehicle_length (ps : Parsers) (sid : ℕ) (nid : Val)
    (today : String) (l : List AssetP) : ∀ aid,
    (processAssets ps sid nid today aid l).2.2.2.1.length
      = l.countP (fun a => optMem (pyGetD a.asset_type_id 39) [18, 19, 20]) := by
  induction l with
  | nil => intro aid; rfl
  | cons a t ih =>
    intro aid
    rw [processAssets, List.countP_cons]
    simp only [List.length_append]
    rw [toList_length, processAsset_vehicle_isSome, ih (aid + 1)]
    cases hopt : optMem (pyGetD a.asset_type_id 39) [18, 19, 20] <;>
      simp [hopt] <;> omega

/-- The other-row count is the count of undispatched assets. -/
theorem processAssets_other_length (ps : Parsers) (sid : ℕ) (nid : Val)
    (today : String) (l : List AssetP) : ∀ aid,
    (processAssets ps sid nid today aid l).2.2.2.2.1.length
      = l.countP (fun a => !(optMem (pyGetD a.asset_type_id 39)
          [1, 2, 3, 4, 10, 11, 13, 18, 19, 20, 37])) := by
  induction l with
  | nil => intro aid; rfl
  | cons a t ih =>
    intro aid
    rw [processAssets, List.countP_cons]
    simp only [List.length_append]
    rw [toList_length, processAsset_other_isSome, ih (aid + 1)]
    cases hopt : optMem (pyGetD a.asset_type_id 39)
        [1, 2, 3, 4, 10, 11, 13, 18, 19, 20, 37] <;>
      simp [hopt] <;> omega

/-- The relative-row list is as long as the relative payload list. -/
theorem processRelatives_length (sid : ℕ) (nid : Val) (today : String)
    (l : List RelativeP) : ∀ rid,
    (processRelatives sid nid today rid l).1.length = l.length := by
  induction l with
  | nil => intro rid; rfl
  | cons r t ih =>
    intro rid
    rw [processRelatives]
    simp [ih (rid + 1)]

/-- The stored `is_death` cell tests `'TRUE'` exactly when the payload flag
is truthy. -/
theorem processRelatives_death_map (sid : ℕ) (nid : Val) (today : String)
    (l : List RelativeP) : ∀ rid,
    ((processRelatives sid nid today rid l).1.map
        (fun r => r.is_death == "TRUE"))
      = l.map (fun r => sgBoolTruthy r.is_death) := by
  induction l with
  | nil => intro rid; rfl
  | cons r t ih =>
    intro rid
    rw [processRelatives]
    simp only [List.map_cons]
    rw [ih (rid + 1)]
    congr 1
    have h1 : (relativeRowOf rid sid nid today r).is_death
        = (if sgBoolTruthy r.is_death then "TRUE" else "FALSE") := rfl
    rw [h1]
    cases hb : sgBoolTruthy r.is_death <;> decide

/-- Truthiness of an ownership flag read with a plain `get` agrees with the
`_safe_get` reading used when the row is built. -/
theorem memOwner_eq_sgBoolTruthy (proj : AssetP → Field Bool) (a : AssetP) :
    memOwner proj a = sgBoolTruthy (proj a) := by
  rcases h : proj a with _ | ⟨_ | b⟩ <;> simp [memOwner, pyGet, sgBoolTruthy, h]

/-- The death flag of the summary generator, rephrased through the
`_safe_get` reading of the payload flag. -/
theorem memDeathFlag_any (l : List RelativeP) :
    memDeathFlag l
      = if l.any (fun r => sgBoolTruthy r.is_death) then 1 else 0 := by
  rw [memDeathFlag]
  refine congrArg (fun c : Bool => if c = true then (1 : ℕ) else 0) ?_
  induction l with
  | nil => rfl
  | cons x t ih =>
    rw [List.any_cons, List.any_cons, ih]
    congr 1
    rcases h : x.is_death with _ | ⟨_ | b⟩ <;> simp [pyGet, sgBoolTruthy, h]

/-- Folding an `any` through a `map`. -/
theorem any_map_id {α : Type} (l : List α) (f : α → Bool) :
    (l.map f).any id = l.any f := by
  induction l with
  | nil => rfl
  | cons x t ih =>
    rw [List.map_cons, List.any_cons, List.any_cons, ih]
    rfl

/-- The asset type codes on which the two aggregate computations coincide:
the built-in `asset_type` vocabulary of `_insert_asset_type` minus code 37
(37 is dispatched to the building sub-table and counted as a building by
the SQL side, but `_generate_summary` tests `range(10, 18)` for buildings
and `>= 22` for other assets, so it lands in neither in-memory bucket). -/
def agreeIds : List ℤ :=
  [1, 2, 3, 4, 10, 11, 13, 18, 19, 20, 22, 24, 25, 28, 29, 30, 31, 32, 33, 39]

/-- Trivial extraction profiles (every free-text parse yields no fields);
the aggregates never look at the parsed sub-fields. -/
def exParsers : Parsers :=
  ⟨fun _ _ => [], fun _ _ => [], fun _ _ => []⟩

/-- A land asset (type code 1) with a valuation. -/
def exAsset1 : AssetP :=
  { asset_type_id := some (some 1), valuation := some (some 50) }

/-- An asset with type code 37. -/
def exAsset37 : AssetP :=
  { asset_type_id := some (some 37) }

/-- C1: for one document's relational contents, each aggregate of
`_generate_summary` (three statement valuation totals, the asset count, the
four per-type asset counts, the total / per-type / per-owner asset
valuation sums, the relative count, and the death flag) equals the
corresponding column of the validation SQL of `run_validation_query`
computed over the rows inserted for that document, reading SQL `NULL`
aggregates as 0 — provided every asset's type code is present and drawn
from the built-in `asset_type` vocabulary with code 37 excluded
(`agreeIds`). -/
theorem summary_sql_aggregate_equivalence
    (ps : Parsers) (sid : ℕ) (nid : Val) (today : String) (aid0 rid0 : ℕ)
    (stmts : List Stmt) (assets : List AssetP) (rels : List RelativeP)
    (H : ∀ a ∈ assets, ∃ t, a.asset_type_id = some (some t) ∧ t ∈ agreeIds) :
    (sqlStatementTotal (fun r => r.valuation_submitter)
        (processStatements sid nid today stmts)).getD 0
      = memStatementTotal (fun s => s.valuation_submitter) stmts ∧
    (sqlStatementTotal (fun r => r.valuation_spouse)
        (processStatements sid nid today stmts)).getD 0
      = memStatementTotal (fun s => s.valuation_spouse) stmts ∧
    (sqlStatementTotal (fun r => r.valuation_child)
        (processStatements sid nid today stmts)).getD 0
      = memStatementTotal (fun s => s.valuation_child) stmts ∧
    (sqlCount (processAssets ps sid nid today aid0 assets).1).getD 0
      = assets.length ∧
    (sqlCount (processAssets ps sid nid today aid0 assets).2.1).getD 0
      = assets.countP (fun a => memIsLand a) ∧
    (sqlCount (processAssets ps sid nid today aid0 assets).2.2.1).getD 0
      = assets.countP (fun a => memIsBuilding a) ∧
    (sqlCount (processAssets ps sid nid today aid0 assets).2.2.2.1).getD 0
      = assets.countP (fun a => memIsVehicle a) ∧
    (sqlSumOnes (processAssets ps sid nid today aid0 assets).2.2.2.2.1).getD 0
      = assets.countP (fun a => memIsOther a) ∧
    (sqlSum ((processAssets ps sid nid today aid0 assets).1.map
        (fun r => insVal r.valuation))).getD 0
      = memAssetVal (fun _ => true) assets ∧
    (sqlCaseSum (fun r => typeNameIs r "ที่ดิน")
        (processAssets ps sid nid today aid0 assets).1).getD 0
      = memAssetVal memIsLand assets ∧
    (sqlCaseSum (fun r => typeNameIs r "สิ่งปลูกสร้าง")
        (processAssets ps sid nid today aid0 assets).1).getD 0
      = memAssetVal memIsBuilding assets ∧
    (sqlCaseSum (fun r => typeNameIs r "ยานพาหนะ")
        (processAssets ps sid nid today aid0 assets).1).getD 0
      = memAssetVal memIsVehicle assets ∧
    (sqlCaseSum typeNameIsOther
        (processAssets ps sid nid today aid0 assets).1).getD 0
      = memAssetVal memIsOther assets ∧
    (sqlCaseSum (ownerCol (fun r => r.owner_by_submitter))
        (processAssets ps sid nid today aid0 assets).1).getD 0
      = memAssetVal (memOwner (fun a => a.owner_by_submitter)) assets ∧
    (sqlCaseSum (ownerCol (fun r => r.owner_by_spouse))
        (processAssets ps sid nid today aid0 assets).1).getD 0
      = memAssetVal (memOwner (fun a => a.owner_by_spouse)) assets ∧
    (sqlCaseSum (ownerCol (fun r => r.owner_by_child))
        (processAssets ps sid nid today aid0 assets).1).getD 0
      = memAssetVal (memOwner (fun a => a.owner_by_child)) assets ∧
    (sqlCount (processRelatives sid nid today rid0 rels).1).getD 0
      = rels.length ∧
    (sqlDeathFlag (processRelatives sid nid today rid0 rels).1).getD 0
      = memDeathFlag rels := by
  have hmem : ∀ a ∈ assets, ∃ t, pyGetD a.asset_type_id 39 = some t ∧
      pyGet a.asset_type_id = some t ∧ t ∈ agreeIds := by
    intro a ha
    obtain ⟨t, hf, ht⟩ := H a ha
    exact ⟨t, by rw [hf]; rfl, by rw [hf]; rfl, ht⟩
  have hst : ∀ (proj : Stmt → Field ℚ) (projR : StatementRow → Val),
      (∀ s : Stmt, projR (statementRowOf sid nid today s)
        = sg Val.vfloat (proj s) (Val.vstr "")) →
      (sqlStatementTotal projR (processStatements sid nid today stmts)).getD 0
        = memStatementTotal proj stmts := by
    intro proj projR hpr
    rw [sqlStatementTotal, sqlSum_getD, reduceOption_map_sum,
      processStatements, List.map_map, memStatementTotal]
    have hmap : ∀ s ∈ stmts,
        ((fun x : StatementRow => (insVal (projR x)).getD 0)
          ∘ statementRowOf sid nid today) s = valOrZero (proj s) := by
      intro s hs
      show (insVal (projR (statementRowOf sid nid today s))).getD 0
        = valOrZero (proj s)
      rw [hpr s, insVal_sg_getD]
    exact congrArg List.sum (List.map_congr_left hmap)
  have hs1 := hst (fun s => s.valuation_submitter)
    (fun r => r.valuation_submitter) (fun s => rfl)
  have hs2 := hst (fun s => s.valuation_spouse)
    (fun r => r.valuation_spouse) (fun s => rfl)
  have hs3 := hst (fun s => s.valuation_child)
    (fun r => r.valuation_child) (fun s => rfl)
  have hcnt : (sqlCount (processAssets ps sid nid today aid0 assets).1).getD 0
      = assets.length := by
    rw [sqlCount_getD, processAssets_length]
  have hL : ∀ t ∈ agreeIds, optMem (some t) [1, 2, 3, 4]
      = (decide ((1 : ℤ) ≤ t) && decide (t < 10)) := by decide
  have hB : ∀ t ∈ agreeIds, optMem (some t) [10, 11, 13, 37]
      = (decide ((10 : ℤ) ≤ t) && decide (t < 18)) := by decide
  have hV : ∀ t ∈ agreeIds, optMem (some t) [18, 19, 20]
      = (decide ((18 : ℤ) ≤ t) && decide (t < 22)) := by decide
  have hO : ∀ t ∈ agreeIds,
      (!(optMem (some t) [1, 2, 3, 4, 10, 11, 13, 18, 19, 20, 37]))
        = (!(t == 0) && decide ((22 : ℤ) ≤ t)) := by decide
  have htnL : ∀ t ∈ agreeIds, tnIs (some t) "ที่ดิน"
      = (decide ((1 : ℤ) ≤ t) && decide (t < 10)) := by decide
  have htnB : ∀ t ∈ agreeIds, tnIs (some t) "สิ่งปลูกสร้าง"
      = (decide ((10 : ℤ) ≤ t) && decide (t < 18)) := by decide
  have htnV : ∀ t ∈ agreeIds, tnIs (some t) "ยานพาหนะ"
      = (decide ((18 : ℤ) ≤ t) && decide (t < 22)) := by decide
  have htnO : ∀ t ∈ agreeIds, tnOther (some t)
      = (!(t == 0) && decide ((22 : ℤ) ≤ t)) := by decide
  have hcL : (sqlCount (processAssets ps sid nid today aid0 assets).2.1).getD 0
      = assets.countP (fun a => memIsLand a) := by
    rw [sqlCount_getD, processAssets_land_length]
    apply List.countP_congr
    intro a ha
    obtain ⟨t, h1, h2, ht⟩ := hmem a ha
    show optMem (pyGetD a.asset_type_id 39) [1, 2, 3, 4] = true
      ↔ memIsLand a = true
    have h4 : memIsLand a = (decide ((1 : ℤ) ≤ t) && decide (t < 10)) := by
      simp only [memIsLand, h2]
    rw [h1, h4, hL t ht]
  have hcB : (sqlCount
        (processAssets ps sid nid today aid0 assets).2.2.1).getD 0
      = assets.countP (fun a => memIsBuilding a) := by
    rw [sqlCount_getD, processAssets_building_length]
    apply List.countP_congr
    intro a ha
    obtain ⟨t, h1, h2, ht⟩ := hmem a ha
    show optMem (pyGetD a.asset_type_id 39) [10, 11, 13, 37] = true
      ↔ memIsBuilding a = true
    have h4 : memIsBuilding a
        = (decide ((10 : ℤ) ≤ t) && decide (t < 18)) := by
      simp only [memIsBuilding, h2]
    rw [h1, h4, hB t ht]
  have hcV : (sqlCount
        (processAssets ps sid nid today aid0 assets).2.2.2.1).getD 0
      = assets.countP (fun a => memIsVehicle a) := by
    rw [sqlCount_getD, processAssets_vehicle_length]
    apply List.countP_congr
    intro a ha
    obtain ⟨t, h1, h2, ht⟩ := hmem a ha
    show optMem (pyGetD a.asset_type_id 39) [18, 19, 20] = true
      ↔ memIsVehicle a = true
    have h4 : memIsVehicle a
        = (decide ((18 : ℤ) ≤ t) && decide (t < 22)) := by
      simp only [memIsVehicle, h2]
    rw [h1, h4, hV t ht]
  have hcO : (sqlSumOnes
        (processAssets ps sid nid today aid0 assets).2.2.2.2.1).getD 0
      = assets.countP (fun a => memIsOther a) := by
    rw [sqlSumOnes_getD, processAssets_other_length]
    apply List.countP_congr
    intro a ha
    obtain ⟨t, h1, h2, ht⟩ := hmem a ha
    show (!(optMem (pyGetD a.asset_type_id 39)
        [1, 2, 3, 4, 10, 11, 13, 18, 19, 20, 37])) = true
      ↔ memIsOther a = true
    have h4 : memIsOther a = (!(t == 0) && decide ((22 : ℤ) ≤ t)) := by
      simp only [memIsOther, h2]
    rw [h1, h4, hO t ht]
  have hcase : ∀ (condR : AssetRow → Bool) (condP : AssetP → Bool),
      (∀ a ∈ assets, ∀ aid,
        condR (processAsset ps sid nid today aid a).1 = condP a) →
      (sqlCaseSum condR (processAssets ps sid nid today aid0 assets).1).getD 0
        = memAssetVal condP assets := by
    intro condR condP hc
    rw [sqlCaseSum, sqlSum_getD, reduceOption_map_sum, memAssetVal,
      filter_map_sum]
    have hpt : ∀ a ∈ assets, ∀ aid,
        (fun x : AssetRow =>
          (if condR x then insVal x.valuation else some 0).getD 0)
          ((processAsset ps sid nid today aid a).1)
        = (fun y : AssetP =>
            if condP y then valOrZero y.valuation else 0) a := by
      intro a ha aid
      show (if condR (processAsset ps sid nid today aid a).1 then
          insVal (processAsset ps sid nid today aid a).1.valuation
        else some 0).getD 0
        = if condP a then valOrZero a.valuation else 0
      rw [hc a ha aid]
      by_cases h : condP a = true
      · rw [if_pos h, if_pos h]
        have hv : (processAsset ps sid nid today aid a).1.valuation
            = sg Val.vfloat a.valuation (Val.vstr "") := rfl
        rw [hv, insVal_sg_getD]
      · rw [if_neg h, if_neg h]
        rfl
    exact processAssets_map_sum ps sid nid today
      (fun x : AssetRow =>
        (if condR x then insVal x.valuation else some 0).getD 0)
      (fun y : AssetP => if condP y then valOrZero y.valuation else 0)
      assets hpt aid0
  have hv1 : (sqlSum ((processAssets ps sid nid today aid0 assets).1.map
      (fun r => insVal r.valuation))).getD 0
      = memAssetVal (fun _ => true) assets := by
    rw [sqlSum_getD, reduceOption_map_sum, memAssetVal, filter_map_sum]
    have hpt : ∀ a ∈ assets, ∀ aid,
        (fun x : AssetRow => (insVal x.valuation).getD 0)
          ((processAsset ps sid nid today aid a).1)
        = (fun y : AssetP =>
            if (fun _ : AssetP => true) y then valOrZero y.valuation else 0)
          a := by
      intro a ha aid
      show (insVal ((processAsset ps sid nid today aid a).1.valuation)).getD 0
        = valOrZero a.valuation
      have hv : (processAsset ps sid nid today aid a).1.valuation
          = sg Val.vfloat a.valuation (Val.vstr "") := rfl
      rw [hv, insVal_sg_getD]
    exact processAssets_map_sum ps sid nid today
      (fun x : AssetRow => (insVal x.valuation).getD 0)
      (fun y : AssetP =>
        if (fun _ : AssetP => true) y then valOrZero y.valuation else 0)
      assets hpt aid0
  have hptL : ∀ a ∈ assets, ∀ aid,
      typeNameIs (processAsset ps sid nid today aid a).1 "ที่ดิน"
        = memIsLand a := by
    intro a ha aid
    obtain ⟨t, h1, h2, ht⟩ := hmem a ha
    have h3 : (processAsset ps sid nid today aid a).1.asset_type_id
        = some t := h1
    have h4 : memIsLand a = (decide ((1 : ℤ) ≤ t) && decide (t < 10)) := by
      simp only [memIsLand, h2]
    rw [typeNameIs, h3, h4, htnL t ht]
  have hptB : ∀ a ∈ assets, ∀ aid,
      typeNameIs (processAsset ps sid nid today aid a).1 "สิ่งปลูกสร้าง"
        = memIsBuilding a := by
    intro a ha aid
    obtain ⟨t, h1, h2, ht⟩ := hmem a ha
    have h3 : (processAsset ps sid nid today aid a).1.asset_type_id
        = some t := h1
    have h4 : memIsBuilding a
        = (decide ((10 : ℤ) ≤ t) && decide (t < 18)) := by
      simp only [memIsBuilding, h2]
    rw [typeNameIs, h3, h4, htnB t ht]
  have hptV : ∀ a ∈ assets, ∀ aid,
      typeNameIs (processAsset ps sid nid today aid a).1 "ยานพาหนะ"
        = memIsVehicle a := by
    intro a ha aid
    obtain ⟨t, h1, h2, ht⟩ := hmem a ha
    have h3 : (processAsset ps sid nid today aid a).1.asset_type_id
        = some t := h1
    have h4 : memIsVehicle a
        = (decide ((18 : ℤ) ≤ t) && decide (t < 22)) := by
      simp only [memIsVehicle, h2]
    rw [typeNameIs, h3, h4, htnV t ht]
  have hptO : ∀ a ∈ assets, ∀ aid,
      typeNameIsOther (processAsset ps sid nid today aid a).1
        = memIsOther a := by
    intro a ha aid
    obtain ⟨t, h1, h2, ht⟩ := hmem a ha
    have h3 : (processAsset ps sid nid today aid a).1.asset_type_id
        = some t := h1
    have h4 : memIsOther a = (!(t == 0) && decide ((22 : ℤ) ≤ t)) := by
      simp only [memIsOther, h2]
    rw [typeNameIsOther, h3, h4, htnO t ht]
  have hownS : ∀ a ∈ assets, ∀ aid,
      ownerCol (fun r => r.owner_by_submitter)
        ((processAsset ps sid nid today aid a).1)
        = memOwner (fun x => x.owner_by_submitter) a := by
    intro a ha aid
    have h1 : (processAsset ps sid nid today aid a).1.owner_by_submitter
        = (if sgBoolTruthy a.owner_by_submitter then "TRUE" else "FALSE") :=
      rfl
    show ((processAsset ps sid nid today aid a).1.owner_by_submitter == "TRUE")
      = memOwner (fun x => x.owner_by_submitter) a
    rw [h1, memOwner_eq_sgBoolTruthy]
    cases hb : sgBoolTruthy a.owner_by_submitter <;> decide
  have hownSp : ∀ a ∈ assets, ∀ aid,
      ownerCol (fun r => r.owner_by_spouse)
        ((processAsset ps sid nid today aid a).1)
        = memOwner (fun x => x.owner_by_spouse) a := by
    intro a ha aid
    have h1 : (processAsset ps sid nid today aid a).1.owner_by_spouse
        = (if sgBoolTruthy a.owner_by_spouse then "TRUE" else "FALSE") := rfl
    show ((processAsset ps sid nid today aid a).1.owner_by_spouse == "TRUE")
      = memOwner (fun x => x.owner_by_spouse) a
    rw [h1, memOwner_eq_sgBoolTruthy]
    cases hb : sgBoolTruthy a.owner_by_spouse <;> decide
  have hownC : ∀ a ∈ assets, ∀ aid,
      ownerCol (fun r => r.owner_by_child)
        ((processAsset ps sid nid today aid a).1)
        = memOwner (fun x => x.owner_by_child) a := by
    intro a ha aid
    have h1 : (processAsset ps sid nid today aid a).1.owner_by_child
        = (if sgBoolTruthy a.owner_by_child then "TRUE" else "FALSE") := rfl
    show ((processAsset ps sid nid today aid a).1.owner_by_child == "TRUE")
      = memOwner (fun x => x.owner_by_child) a
    rw [h1, memOwner_eq_sgBoolTruthy]
    cases hb : sgBoolTruthy a.owner_by_child <;> decide
  have hr1 : (sqlCount (processRelatives sid nid today rid0 rels).1).getD 0
      = rels.length := by
    rw [sqlCount_getD, processRelatives_length]
  have hr2 : (sqlDeathFlag (processRelatives sid nid today rid0 rels).1).getD 0
      = memDeathFlag rels := by
    rw [sqlDeathFlag, processRelatives_death_map sid nid today rels rid0,
      memDeathFlag_any]
    rcases rels with _ | ⟨r, t⟩
    · rfl
    · have hne : ¬ ((((r :: t).map
          fun x => sgBoolTruthy x.is_death).isEmpty) = true) := by simp
      rw [sqlMaxFlag, if_neg hne, Option.getD_some, any_map_id]
  exact ⟨hs1, hs2, hs3, hcnt, hcL, hcB, hcV, hcO, hv1,
    hcase (fun r => typeNameIs r "ที่ดิน") memIsLand hptL,
    hcase (fun r => typeNameIs r "สิ่งปลูกสร้าง") memIsBuilding hptB,
    hcase (fun r => typeNameIs r "ยานพาหนะ") memIsVehicle hptV,
    hcase typeNameIsOther memIsOther hptO,
    hcase (ownerCol (fun r => r.owner_by_submitter))
      (memOwner (fun a => a.owner_by_submitter)) hownS,
    hcase (ownerCol (fun r => r.owner_by_spouse))
      (memOwner (fun a => a.owner_by_spouse)) hownSp,
    hcase (ownerCol (fun r => r.owner_by_child))
      (memOwner (fun a => a.owner_by_child)) hownC,
    hr1, hr2⟩

/-- Witness: a one-asset document whose type code 1 lies in the agreement
vocabulary; the hypothesis holds and the land-count conjunct is obtained
from the equivalence. -/
theorem summary_sql_aggregate_equivalence_witness :
    (∀ a ∈ [exAsset1], ∃ t, a.asset_type_id = some (some t) ∧ t ∈ agreeIds)
    ∧ (sqlCount (processAssets exParsers 7 (Val.vint 9) "2568-01-01" 3
        [exAsset1]).2.1).getD 0
      = [exAsset1].countP (fun a => memIsLand a) := by
  have hH : ∀ a ∈ [exAsset1],
      ∃ t, a.asset_type_id = some (some t) ∧ t ∈ agreeIds := by
    intro a ha
    rw [List.mem_singleton] at ha
    subst ha
    exact ⟨1, rfl, by decide⟩
  exact ⟨hH, (summary_sql_aggregate_equivalence exParsers 7 (Val.vint 9)
    "2568-01-01" 3 5 [] [exAsset1] [] hH).2.2.2.2.1⟩

/-- An asset typed 37: the validation SQL counts it in the building
sub-table (dispatch list contains 37) and not as an other asset, while the
summary generator's building range excludes it and its other-test
(at least 22) counts it, so the per-type counts disagree. -/
theorem summary_sql_aggregate_divergence_counterexample :
    (sqlCount (processAssets exParsers 1 (Val.vint 1) "2568-01-01" 1
        [exAsset37]).2.2.1).getD 0 = 1
    ∧ [exAsset37].countP (fun a => memIsBuilding a) = 0
    ∧ (sqlSumOnes (processAssets exParsers 1 (Val.vint 1) "2568-01-01" 1
        [exAsset37]).2.2.2.2.1).getD 0 = 0
    ∧ [exAsset37].countP (fun a => memIsOther a) = 1 := by
  decide

end NaccPipeline
